import Mathlib

/-!
# AES-128 (Rijndael) block cipher: embedding of `rijndael.c` / `rijndael.h`

Bytes (`unsigned char`) are natural numbers below 256; buffers reached through
`unsigned char *` are lists of bytes.  Every array read and write is bounds
checked and the functions live in `Except Fault`, so an access outside a
buffer shows up as an error.  Memory allocation is assumed to succeed; a
buffer returned by `malloc` and an uninitialised local array are lists of
zeros of the declared size (the code writes every byte before reading it).
A `for` loop over a constant range is a monadic fold over the list of the
values its counter takes.
-/

namespace Rijndael

/-! ## Constants of `rijndael.h` -/

def BLOCK_SIZE : Nat := 16

def KEY_SIZE : Nat := 16

def NUM_ROUNDS : Nat := 10

def EXPANDED_KEY_SIZE : Nat := KEY_SIZE * (NUM_ROUNDS + 1)

/-- Index addressed by the macro `BLOCK_ACCESS(block, row, col)`, that is
`block[(row * 4) + col]`. -/
def BLOCK_ACCESS (row col : Nat) : Nat := (row * 4) + col

/-! ## Buffers -/

/-- The only fault of the embedding: an access outside a buffer. -/
inductive Fault where
  | out_of_bounds
  deriving DecidableEq, Repr

/-- Read `m[i]`; a fault when `i` is outside the buffer. -/
def rd (m : List Nat) (i : Nat) : Except Fault Nat :=
  match m[i]? with
  | some v => .ok v
  | none => .error .out_of_bounds

/-- Write `m[i] = v`; a fault when `i` is outside the buffer. -/
def wr (m : List Nat) (i v : Nat) : Except Fault (List Nat) :=
  if i < m.length then .ok (m.set i v) else .error .out_of_bounds

/-- Copy of `n` bytes, `memcpy(dst, src, n)`. -/
def memcpy (dst src : List Nat) (n : Nat) : Except Fault (List Nat) :=
  (List.range n).foldlM (fun d j => do wr d j (← rd src j)) dst

/-- Successive values of `round` in `for (round = n; round > 0; round--)`. -/
def countdown : Nat → List Nat
  | 0 => []
  | n + 1 => (n + 1) :: countdown n

/-! ## Constant tables -/

def s_box : List Nat := [
  0x63, 0x7c, 0x77, 0x7b, 0xf2, 0x6b, 0x6f, 0xc5, 0x30, 0x01, 0x67, 0x2b, 0xfe, 0xd7, 0xab, 0x76,
  0xca, 0x82, 0xc9, 0x7d, 0xfa, 0x59, 0x47, 0xf0, 0xad, 0xd4, 0xa2, 0xaf, 0x9c, 0xa4, 0x72, 0xc0,
  0xb7, 0xfd, 0x93, 0x26, 0x36, 0x3f, 0xf7, 0xcc, 0x34, 0xa5, 0xe5, 0xf1, 0x71, 0xd8, 0x31, 0x15,
  0x04, 0xc7, 0x23, 0xc3, 0x18, 0x96, 0x05, 0x9a, 0x07, 0x12, 0x80, 0xe2, 0xeb, 0x27, 0xb2, 0x75,
  0x09, 0x83, 0x2c, 0x1a, 0x1b, 0x6e, 0x5a, 0xa0, 0x52, 0x3b, 0xd6, 0xb3, 0x29, 0xe3, 0x2f, 0x84,
  0x53, 0xd1, 0x00, 0xed, 0x20, 0xfc, 0xb1, 0x5b, 0x6a, 0xcb, 0xbe, 0x39, 0x4a, 0x4c, 0x58, 0xcf,
  0xd0, 0xef, 0xaa, 0xfb, 0x43, 0x4d, 0x33, 0x85, 0x45, 0xf9, 0x02, 0x7f, 0x50, 0x3c, 0x9f, 0xa8,
  0x51, 0xa3, 0x40, 0x8f, 0x92, 0x9d, 0x38, 0xf5, 0xbc, 0xb6, 0xda, 0x21, 0x10, 0xff, 0xf3, 0xd2,
  0xcd, 0x0c, 0x13, 0xec, 0x5f, 0x97, 0x44, 0x17, 0xc4, 0xa7, 0x7e, 0x3d, 0x64, 0x5d, 0x19, 0x73,
  0x60, 0x81, 0x4f, 0xdc, 0x22, 0x2a, 0x90, 0x88, 0x46, 0xee, 0xb8, 0x14, 0xde, 0x5e, 0x0b, 0xdb,
  0xe0, 0x32, 0x3a, 0x0a, 0x49, 0x06, 0x24, 0x5c, 0xc2, 0xd3, 0xac, 0x62, 0x91, 0x95, 0xe4, 0x79,
  0xe7, 0xc8, 0x37, 0x6d, 0x8d, 0xd5, 0x4e, 0xa9, 0x6c, 0x56, 0xf4, 0xea, 0x65, 0x7a, 0xae, 0x08,
  0xba, 0x78, 0x25, 0x2e, 0x1c, 0xa6, 0xb4, 0xc6, 0xe8, 0xdd, 0x74, 0x1f, 0x4b, 0xbd, 0x8b, 0x8a,
  0x70, 0x3e, 0xb5, 0x66, 0x48, 0x03, 0xf6, 0x0e, 0x61, 0x35, 0x57, 0xb9, 0x86, 0xc1, 0x1d, 0x9e,
  0xe1, 0xf8, 0x98, 0x11, 0x69, 0xd9, 0x8e, 0x94, 0x9b, 0x1e, 0x87, 0xe9, 0xce, 0x55, 0x28, 0xdf,
  0x8c, 0xa1, 0x89, 0x0d, 0xbf, 0xe6, 0x42, 0x68, 0x41, 0x99, 0x2d, 0x0f, 0xb0, 0x54, 0xbb, 0x16
]

def inv_s_box : List Nat := [
  0x52, 0x09, 0x6a, 0xd5, 0x30, 0x36, 0xa5, 0x38, 0xbf, 0x40, 0xa3, 0x9e, 0x81, 0xf3, 0xd7, 0xfb,
  0x7c, 0xe3, 0x39, 0x82, 0x9b, 0x2f, 0xff, 0x87, 0x34, 0x8e, 0x43, 0x44, 0xc4, 0xde, 0xe9, 0xcb,
  0x54, 0x7b, 0x94, 0x32, 0xa6, 0xc2, 0x23, 0x3d, 0xee, 0x4c, 0x95, 0x0b, 0x42, 0xfa, 0xc3, 0x4e,
  0x08, 0x2e, 0xa1, 0x66, 0x28, 0xd9, 0x24, 0xb2, 0x76, 0x5b, 0xa2, 0x49, 0x6d, 0x8b, 0xd1, 0x25,
  0x72, 0xf8, 0xf6, 0x64, 0x86, 0x68, 0x98, 0x16, 0xd4, 0xa4, 0x5c, 0xcc, 0x5d, 0x65, 0xb6, 0x92,
  0x6c, 0x70, 0x48, 0x50, 0xfd, 0xed, 0xb9, 0xda, 0x5e, 0x15, 0x46, 0x57, 0xa7, 0x8d, 0x9d, 0x84,
  0x90, 0xd8, 0xab, 0x00, 0x8c, 0xbc, 0xd3, 0x0a, 0xf7, 0xe4, 0x58, 0x05, 0xb8, 0xb3, 0x45, 0x06,
  0xd0, 0x2c, 0x1e, 0x8f, 0xca, 0x3f, 0x0f, 0x02, 0xc1, 0xaf, 0xbd, 0x03, 0x01, 0x13, 0x8a, 0x6b,
  0x3a, 0x91, 0x11, 0x41, 0x4f, 0x67, 0xdc, 0xea, 0x97, 0xf2, 0xcf, 0xce, 0xf0, 0xb4, 0xe6, 0x73,
  0x96, 0xac, 0x74, 0x22, 0xe7, 0xad, 0x35, 0x85, 0xe2, 0xf9, 0x37, 0xe8, 0x1c, 0x75, 0xdf, 0x6e,
  0x47, 0xf1, 0x1a, 0x71, 0x1d, 0x29, 0xc5, 0x89, 0x6f, 0xb7, 0x62, 0x0e, 0xaa, 0x18, 0xbe, 0x1b,
  0xfc, 0x56, 0x3e, 0x4b, 0xc6, 0xd2, 0x79, 0x20, 0x9a, 0xdb, 0xc0, 0xfe, 0x78, 0xcd, 0x5a, 0xf4,
  0x1f, 0xdd, 0xa8, 0x33, 0x88, 0x07, 0xc7, 0x31, 0xb1, 0x12, 0x10, 0x59, 0x27, 0x80, 0xec, 0x5f,
  0x60, 0x51, 0x7f, 0xa9, 0x19, 0xb5, 0x4a, 0x0d, 0x2d, 0xe5, 0x7a, 0x9f, 0x93, 0xc9, 0x9c, 0xef,
  0xa0, 0xe0, 0x3b, 0x4d, 0xae, 0x2a, 0xf5, 0xb0, 0xc8, 0xeb, 0xbb, 0x3c, 0x83, 0x53, 0x99, 0x61,
  0x17, 0x2b, 0x04, 0x7e, 0xba, 0x77, 0xd6, 0x26, 0xe1, 0x69, 0x14, 0x63, 0x55, 0x21, 0x0c, 0x7d
]

def rcon : List Nat := [0x01, 0x02, 0x04, 0x08, 0x10, 0x20, 0x40, 0x80, 0x1b, 0x36]

/-! ## Galois field helpers -/

/-- The result `(value << 1) ^ (((value >> 7) & 1) * 0x1b)` is returned as an
`unsigned char`, hence reduced modulo 256. -/
def galois_multiply_by_2 (value : Nat) : Nat :=
  ((value <<< 1) ^^^ (((value >>> 7) &&& 1) * 0x1b)) % 256

def galois_multiply_by_3 (value : Nat) : Nat :=
  galois_multiply_by_2 value ^^^ value

def galois_multiply_by_9 (value : Nat) : Nat :=
  let result := galois_multiply_by_2 (galois_multiply_by_2 (galois_multiply_by_2 value))
  result ^^^ value

def galois_multiply_by_11 (value : Nat) : Nat :=
  let times_2 := galois_multiply_by_2 value
  let times_8 := galois_multiply_by_2 (galois_multiply_by_2 times_2)
  times_8 ^^^ times_2 ^^^ value

def galois_multiply_by_13 (value : Nat) : Nat :=
  let times_2 := galois_multiply_by_2 value
  let times_4 := galois_multiply_by_2 times_2
  let times_8 := galois_multiply_by_2 times_4
  times_8 ^^^ times_4 ^^^ value

def galois_multiply_by_14 (value : Nat) : Nat :=
  let times_2 := galois_multiply_by_2 value
  let times_4 := galois_multiply_by_2 times_2
  let times_8 := galois_multiply_by_2 times_4
  times_8 ^^^ times_4 ^^^ times_2

/-! ## Operations used when encrypting a block -/

def sub_bytes (block : List Nat) : Except Fault (List Nat) :=
  -- for (int i = 0; i < BLOCK_SIZE; i++)
  (List.range BLOCK_SIZE).foldlM
    (fun block i => do wr block i (← rd s_box (← rd block i))) block

def shift_rows (block : List Nat) : Except Fault (List Nat) := do
  -- row 1
  let temp ← rd block (BLOCK_ACCESS 0 1)
  let block ← wr block (BLOCK_ACCESS 0 1) (← rd block (BLOCK_ACCESS 1 1))
  let block ← wr block (BLOCK_ACCESS 1 1) (← rd block (BLOCK_ACCESS 2 1))
  let block ← wr block (BLOCK_ACCESS 2 1) (← rd block (BLOCK_ACCESS 3 1))
  let block ← wr block (BLOCK_ACCESS 3 1) temp
  -- row 2
  let temp ← rd block (BLOCK_ACCESS 0 2)
  let block ← wr block (BLOCK_ACCESS 0 2) (← rd block (BLOCK_ACCESS 2 2))
  let block ← wr block (BLOCK_ACCESS 2 2) temp
  let temp ← rd block (BLOCK_ACCESS 1 2)
  let block ← wr block (BLOCK_ACCESS 1 2) (← rd block (BLOCK_ACCESS 3 2))
  let block ← wr block (BLOCK_ACCESS 3 2) temp
  -- row 3
  let temp ← rd block (BLOCK_ACCESS 0 3)
  let block ← wr block (BLOCK_ACCESS 0 3) (← rd block (BLOCK_ACCESS 3 3))
  let block ← wr block (BLOCK_ACCESS 3 3) (← rd block (BLOCK_ACCESS 2 3))
  let block ← wr block (BLOCK_ACCESS 2 3) (← rd block (BLOCK_ACCESS 1 3))
  wr block (BLOCK_ACCESS 1 3) temp

/-- Body of the `col` loop of `mix_columns`. -/
def mix_columns_col (block : List Nat) (col : Nat) : Except Fault (List Nat) := do
  -- for (int row = 0; row < 4; row++)
  let temp ← (List.range 4).foldlM
    (fun temp row => do wr temp row (← rd block (BLOCK_ACCESS col row)))
    (List.replicate 4 0)
  let block ← wr block (BLOCK_ACCESS col 0)
    (galois_multiply_by_2 (← rd temp 0) ^^^ galois_multiply_by_3 (← rd temp 1) ^^^
      (← rd temp 2) ^^^ (← rd temp 3))
  let block ← wr block (BLOCK_ACCESS col 1)
    ((← rd temp 0) ^^^ galois_multiply_by_2 (← rd temp 1) ^^^
      galois_multiply_by_3 (← rd temp 2) ^^^ (← rd temp 3))
  let block ← wr block (BLOCK_ACCESS col 2)
    ((← rd temp 0) ^^^ (← rd temp 1) ^^^ galois_multiply_by_2 (← rd temp 2) ^^^
      galois_multiply_by_3 (← rd temp 3))
  wr block (BLOCK_ACCESS col 3)
    (galois_multiply_by_3 (← rd temp 0) ^^^ (← rd temp 1) ^^^ (← rd temp 2) ^^^
      galois_multiply_by_2 (← rd temp 3))

def mix_columns (block : List Nat) : Except Fault (List Nat) :=
  -- for (int col = 0; col < 4; col++)
  (List.range 4).foldlM mix_columns_col block

/-! ## Operations used when decrypting a block -/

def invert_sub_bytes (block : List Nat) : Except Fault (List Nat) :=
  -- for (int i = 0; i < BLOCK_SIZE; i++)
  (List.range BLOCK_SIZE).foldlM
    (fun block i => do wr block i (← rd inv_s_box (← rd block i))) block

def invert_shift_rows (block : List Nat) : Except Fault (List Nat) := do
  -- row 1
  let temp ← rd block (BLOCK_ACCESS 3 1)
  let block ← wr block (BLOCK_ACCESS 3 1) (← rd block (BLOCK_ACCESS 2 1))
  let block ← wr block (BLOCK_ACCESS 2 1) (← rd block (BLOCK_ACCESS 1 1))
  let block ← wr block (BLOCK_ACCESS 1 1) (← rd block (BLOCK_ACCESS 0 1))
  let block ← wr block (BLOCK_ACCESS 0 1) temp
  -- row 2
  let temp ← rd block (BLOCK_ACCESS 0 2)
  let block ← wr block (BLOCK_ACCESS 0 2) (← rd block (BLOCK_ACCESS 2 2))
  let block ← wr block (BLOCK_ACCESS 2 2) temp
  let temp ← rd block (BLOCK_ACCESS 1 2)
  let block ← wr block (BLOCK_ACCESS 1 2) (← rd block (BLOCK_ACCESS 3 2))
  let block ← wr block (BLOCK_ACCESS 3 2) temp
  -- row 3
  let temp ← rd block (BLOCK_ACCESS 1 3)
  let block ← wr block (BLOCK_ACCESS 1 3) (← rd block (BLOCK_ACCESS 2 3))
  let block ← wr block (BLOCK_ACCESS 2 3) (← rd block (BLOCK_ACCESS 3 3))
  let block ← wr block (BLOCK_ACCESS 3 3) (← rd block (BLOCK_ACCESS 0 3))
  wr block (BLOCK_ACCESS 0 3) temp

/-- Body of the `col` loop of `invert_mix_columns`. -/
def invert_mix_columns_col (block : List Nat) (col : Nat) : Except Fault (List Nat) := do
  -- for (int row = 0; row < 4; row++)
  let temp ← (List.range 4).foldlM
    (fun temp row => do wr temp row (← rd block (BLOCK_ACCESS col row)))
    (List.replicate 4 0)
  let block ← wr block (BLOCK_ACCESS col 0)
    (galois_multiply_by_14 (← rd temp 0) ^^^ galois_multiply_by_11 (← rd temp 1) ^^^
      galois_multiply_by_13 (← rd temp 2) ^^^ galois_multiply_by_9 (← rd temp 3))
  let block ← wr block (BLOCK_ACCESS col 1)
    (galois_multiply_by_9 (← rd temp 0) ^^^ galois_multiply_by_14 (← rd temp 1) ^^^
      galois_multiply_by_11 (← rd temp 2) ^^^ galois_multiply_by_13 (← rd temp 3))
  let block ← wr block (BLOCK_ACCESS col 2)
    (galois_multiply_by_13 (← rd temp 0) ^^^ galois_multiply_by_9 (← rd temp 1) ^^^
      galois_multiply_by_14 (← rd temp 2) ^^^ galois_multiply_by_11 (← rd temp 3))
  wr block (BLOCK_ACCESS col 3)
    (galois_multiply_by_11 (← rd temp 0) ^^^ galois_multiply_by_13 (← rd temp 1) ^^^
      galois_multiply_by_9 (← rd temp 2) ^^^ galois_multiply_by_14 (← rd temp 3))

def invert_mix_columns (block : List Nat) : Except Fault (List Nat) :=
  -- for (int col = 0; col < 4; col++)
  (List.range 4).foldlM invert_mix_columns_col block

def add_round_key (block round_key : List Nat) : Except Fault (List Nat) :=
  -- for (int i = 0; i < BLOCK_SIZE; i++)
  (List.range BLOCK_SIZE).foldlM
    (fun block i => do wr block i ((← rd block i) ^^^ (← rd round_key i))) block

/-! ## Key schedule -/

/-- Body of the round loop of `expand_key`, for round `i`; `prev_key` and
`current_key` are the offsets `(i - 1) * KEY_SIZE` and `i * KEY_SIZE` into
`expanded_key`. -/
def expand_key_round (expanded_key : List Nat) (i : Nat) : Except Fault (List Nat) := do
  let prev_key := (i - 1) * KEY_SIZE
  let current_key := i * KEY_SIZE
  let temp := List.replicate 4 0
  let temp ← wr temp 0 (← rd expanded_key (prev_key + 12))
  let temp ← wr temp 1 (← rd expanded_key (prev_key + 13))
  let temp ← wr temp 2 (← rd expanded_key (prev_key + 14))
  let temp ← wr temp 3 (← rd expanded_key (prev_key + 15))
  -- rotate word
  let t ← rd temp 0
  let temp ← wr temp 0 (← rd temp 1)
  let temp ← wr temp 1 (← rd temp 2)
  let temp ← wr temp 2 (← rd temp 3)
  let temp ← wr temp 3 t
  -- S-box on all bytes: for (int j = 0; j < 4; j++)
  let temp ← (List.range 4).foldlM
    (fun temp j => do wr temp j (← rd s_box (← rd temp j))) temp
  -- round constant
  let temp ← wr temp 0 ((← rd temp 0) ^^^ (← rd rcon (i - 1)))
  -- first word: for (int j = 0; j < 4; j++)
  let expanded_key ← (List.range 4).foldlM
    (fun ek j => do
      wr ek (current_key + j) ((← rd ek (prev_key + j)) ^^^ (← rd temp j)))
    expanded_key
  -- remaining three words: for (int j = 4; j < 16; j++)
  (List.range' 4 12).foldlM
    (fun ek j => do
      wr ek (current_key + j) ((← rd ek (prev_key + j)) ^^^ (← rd ek (current_key + (j - 4)))))
    expanded_key

def expand_key (cipher_key : List Nat) : Except Fault (List Nat) := do
  let expanded_key ← memcpy (List.replicate EXPANDED_KEY_SIZE 0) cipher_key KEY_SIZE
  -- for (int i = 1; i <= NUM_ROUNDS; i++)
  (List.range' 1 NUM_ROUNDS).foldlM expand_key_round expanded_key

/-! ## Entry points -/

/-- Body of the main round loop of `aes_encrypt_block`. -/
def encrypt_round (expanded_key output : List Nat) (round : Nat) : Except Fault (List Nat) := do
  let output ← sub_bytes output
  let output ← shift_rows output
  let output ← mix_columns output
  add_round_key output (expanded_key.drop (round * KEY_SIZE))

def aes_encrypt_block (plaintext key : List Nat) : Except Fault (List Nat) := do
  let output ← memcpy (List.replicate BLOCK_SIZE 0) plaintext BLOCK_SIZE
  let expanded_key ← expand_key key
  let output ← add_round_key output expanded_key
  -- for (int round = 1; round < NUM_ROUNDS; round++)
  let output ← (List.range' 1 (NUM_ROUNDS - 1)).foldlM (encrypt_round expanded_key) output
  let output ← sub_bytes output
  let output ← shift_rows output
  add_round_key output (expanded_key.drop (NUM_ROUNDS * KEY_SIZE))

/-- Body of the main round loop of `aes_decrypt_block`. -/
def decrypt_round (expanded_key output : List Nat) (round : Nat) : Except Fault (List Nat) := do
  let output ← invert_shift_rows output
  let output ← invert_sub_bytes output
  let output ← add_round_key output (expanded_key.drop (round * KEY_SIZE))
  invert_mix_columns output

def aes_decrypt_block (ciphertext key : List Nat) : Except Fault (List Nat) := do
  let output ← memcpy (List.replicate BLOCK_SIZE 0) ciphertext BLOCK_SIZE
  let expanded_key ← expand_key key
  let output ← add_round_key output (expanded_key.drop (NUM_ROUNDS * KEY_SIZE))
  -- for (int round = NUM_ROUNDS - 1; round > 0; round--)
  let output ← (countdown (NUM_ROUNDS - 1)).foldlM (decrypt_round expanded_key) output
  let output ← invert_shift_rows output
  let output ← invert_sub_bytes output
  add_round_key output expanded_key

/-- A buffer of exactly `n` bytes. -/
def IsBytes (n : Nat) (b : List Nat) : Prop := b.length = n ∧ ∀ x ∈ b, x < 256

instance (n : Nat) (b : List Nat) : Decidable (IsBytes n b) := by
  unfold IsBytes
  exact inferInstance

deriving instance DecidableEq for Except

/-! ## Pure effect of the loops, used to state what the code computes -/

/-- Pure effect of one iteration of the `sub_bytes` loop. -/
def sub_bytes_step (block : List Nat) (i : Nat) : List Nat :=
  block.set i (s_box.getD (block.getD i 0) 0)

/-- Pure effect of one iteration of the `invert_sub_bytes` loop. -/
def invert_sub_bytes_step (block : List Nat) (i : Nat) : List Nat :=
  block.set i (inv_s_box.getD (block.getD i 0) 0)

/-- Pure effect of one iteration of the `add_round_key` loop. -/
def add_round_key_step (round_key block : List Nat) (i : Nat) : List Nat :=
  block.set i (block.getD i 0 ^^^ round_key.getD i 0)

/-- Pure effect of one iteration of the `memcpy` loop. -/
def memcpy_step (src dst : List Nat) (j : Nat) : List Nat :=
  dst.set j (src.getD j 0)

/-- The recurrence that ties round key `i` of a schedule `E` to round key `i - 1`. -/
def key_recurrence (E : List Nat) (i : Nat) : Prop :=
  E.getD (16 * i) 0 =
      E.getD (16 * (i - 1)) 0 ^^^ s_box.getD (E.getD (16 * (i - 1) + 13) 0) 0 ^^^
        rcon.getD (i - 1) 0 ∧
    E.getD (16 * i + 1) 0 =
      E.getD (16 * (i - 1) + 1) 0 ^^^ s_box.getD (E.getD (16 * (i - 1) + 14) 0) 0 ∧
    E.getD (16 * i + 2) 0 =
      E.getD (16 * (i - 1) + 2) 0 ^^^ s_box.getD (E.getD (16 * (i - 1) + 15) 0) 0 ∧
    E.getD (16 * i + 3) 0 =
      E.getD (16 * (i - 1) + 3) 0 ^^^ s_box.getD (E.getD (16 * (i - 1) + 12) 0) 0 ∧
    ∀ j, 4 ≤ j → j ≤ 15 →
      E.getD (16 * i + j) 0 = E.getD (16 * (i - 1) + j) 0 ^^^ E.getD (16 * i + (j - 4)) 0

/-- SubBytes followed by ShiftRows, the part of a round that precedes MixColumns. -/
def sub_shift (b : List Nat) : Except Fault (List Nat) :=
  sub_bytes b >>= shift_rows

/-- InvShiftRows followed by InvSubBytes, the start of a decryption round. -/
def inv_shift_sub (b : List Nat) : Except Fault (List Nat) :=
  invert_shift_rows b >>= invert_sub_bytes

/-! ## Arithmetic of GF(2^8), written from the definition of the field

These definitions follow the words of the specification, not `rijndael.c`: they are the
second side of the comparisons below, where the helpers and tables of the source are shown
to agree with them. -/

/-- Carry-less product of `a` and the byte `b`: the product of the polynomials over GF(2)
whose coefficients are the bits of `a` and of `b`, that is the xor of `a <<< i` over the set
bits `i` of `b`. -/
def clmul (a b : Nat) : Nat :=
  (List.range 8).foldl (fun acc i => if b.testBit i then acc ^^^ (a <<< i) else acc) 0

/-- Remainder of a polynomial of degree at most 14 modulo `x^8 + x^4 + x^3 + x + 1`
(`0x11b`): the terms of degree 14 down to 8 are cancelled in turn, each by xoring in the
modulus moved up to that degree, as many times (0 or 1) as the coefficient says. -/
def poly_mod (p : Nat) : Nat :=
  [14, 13, 12, 11, 10, 9, 8].foldl
    (fun acc d => acc ^^^ ((acc >>> d) % 2) * (0x11b <<< (d - 8))) p

/-- Product of two bytes in GF(2^8) modulo `x^8 + x^4 + x^3 + x + 1`. -/
def gf_mul (a b : Nat) : Nat := poly_mod (clmul a b)

/-- Rotation of a byte to the left by `n` bits, for `n` in 1..7. -/
def rotl8 (b n : Nat) : Nat := ((b <<< n) ||| (b >>> (8 - n))) % 256

/-- The affine map of the AES S-box, applied to the field inverse `b`. -/
def s_box_affine (b : Nat) : Nat :=
  b ^^^ rotl8 b 1 ^^^ rotl8 b 2 ^^^ rotl8 b 3 ^^^ rotl8 b 4 ^^^ 0x63

/-- Inverse of the affine map of the AES S-box. -/
def s_box_affine_inv (s : Nat) : Nat :=
  rotl8 s 1 ^^^ rotl8 s 3 ^^^ rotl8 s 6 ^^^ 0x05

/-- Check of one S-box entry `s` at index `x`: the preimage `b` of `s` under the affine map
is a byte, it is `0` when `x` is `0` and the inverse of `x` otherwise, and `s` is its affine
image. -/
def s_box_entry_ok (x s : Nat) : Bool :=
  decide (s_box_affine_inv s < 256) && (x != 0 || s_box_affine_inv s == 0) &&
    (x == 0 || gf_mul x (s_box_affine_inv s) == 1) &&
    s == s_box_affine (s_box_affine_inv s)

/-! ## Buffer lemmas -/

theorem bind_eq_of {α β : Type} {x : Except Fault α} {a : α} {f : α → Except Fault β}
    {r : Except Fault β} (h : x = .ok a) (h2 : f a = r) : (x >>= f) = r := by
  subst h; exact h2

theorem rd_ok {m : List Nat} {i : Nat} (h : i < m.length) : rd m i = .ok (m.getD i 0) := by
  simp [rd, List.getD, List.getElem?_eq_getElem h]

theorem rd_eq {m : List Nat} {i v : Nat} (h : i < m.length) (hv : m.getD i 0 = v) :
    rd m i = .ok v := by
  rw [rd_ok h, hv]

theorem wr_ok {m : List Nat} {i : Nat} (v : Nat) (h : i < m.length) :
    wr m i v = .ok (m.set i v) := by
  simp [wr, h]

theorem getD_set_eq {m : List Nat} {i : Nat} (v : Nat) (h : i < m.length) :
    (m.set i v).getD i 0 = v := by
  simp [List.getD, h]

theorem getD_set_ne {m : List Nat} {i j : Nat} (v : Nat) (h : i ≠ j) :
    (m.set i v).getD j 0 = m.getD j 0 := by
  simp [List.getD, List.getElem?_set_ne h]

theorem getD_lt {m : List Nat} (hm : ∀ x ∈ m, x < 256) (i : Nat) : m.getD i 0 < 256 := by
  by_cases h : i < m.length
  · rw [List.getD_eq_getElem _ _ h]; exact hm _ (List.getElem_mem h)
  · rw [List.getD_eq_default _ _ (by omega)]; decide

theorem set_lt {m : List Nat} (hm : ∀ x ∈ m, x < 256) (i : Nat) {v : Nat} (hv : v < 256) :
    ∀ x ∈ m.set i v, x < 256 := by
  intro x hx
  rcases List.mem_or_eq_of_mem_set hx with h | h
  · exact hm x h
  · exact h ▸ hv

/-- Loop rule: a loop whose body never faults on states satisfying the invariant
computes the fold of the body's result. -/
theorem foldlM_inv {α : Type} {f : List Nat → α → Except Fault (List Nat)}
    {g : List Nat → α → List Nat} (Inv : List Nat → Prop) (L : List α)
    (h : ∀ b i, i ∈ L → Inv b → f b i = .ok (g b i) ∧ Inv (g b i)) (b : List Nat)
    (hb : Inv b) : L.foldlM f b = .ok (L.foldl g b) ∧ Inv (L.foldl g b) := by
  induction L generalizing b with
  | nil => exact ⟨rfl, hb⟩
  | cons i L ih =>
    obtain ⟨h1, h2⟩ := h b i (List.mem_cons_self _ _) hb
    rw [List.foldlM_cons, h1]
    exact ih (fun b j hj => h b j (List.mem_cons_of_mem _ hj)) (g b i) h2

/-! ## Table facts -/

set_option maxRecDepth 4096 in
theorem s_box_length : s_box.length = 256 := by decide

set_option maxRecDepth 4096 in
theorem inv_s_box_length : inv_s_box.length = 256 := by decide

theorem rcon_length : rcon.length = 10 := by decide

set_option maxRecDepth 100000 in
theorem s_box_lt : ∀ x ∈ s_box, x < 256 := by decide!

set_option maxRecDepth 100000 in
theorem inv_s_box_lt : ∀ x ∈ inv_s_box, x < 256 := by decide!

theorem rcon_lt : ∀ x ∈ rcon, x < 256 := by decide

set_option maxRecDepth 100000 in
theorem inv_s_box_s_box : ∀ x, x < 256 → inv_s_box.getD (s_box.getD x 0) 0 = x := by decide!

set_option maxRecDepth 100000 in
theorem s_box_inv_s_box : ∀ x, x < 256 → s_box.getD (inv_s_box.getD x 0) 0 = x := by decide!

theorem rd_s_box {x : Nat} (h : x < 256) : rd s_box x = .ok (s_box.getD x 0) :=
  rd_ok (s_box_length ▸ h)

theorem rd_inv_s_box {x : Nat} (h : x < 256) : rd inv_s_box x = .ok (inv_s_box.getD x 0) :=
  rd_ok (inv_s_box_length ▸ h)

/-! ## Galois field facts -/

theorem shift7_and_one (v : Nat) : ((v >>> 7) &&& 1) = if v.testBit 7 then 1 else 0 := by
  simp only [Nat.testBit, Nat.and_comm, Nat.one_and_eq_mod_two]
  rcases Nat.mod_two_eq_zero_or_one (v >>> 7) with h | h <;> simp [h]

/-- Multiplication by 2 distributes over xor. -/
theorem gm2_xor (a b : Nat) :
    galois_multiply_by_2 (a ^^^ b) = galois_multiply_by_2 a ^^^ galois_multiply_by_2 b := by
  unfold galois_multiply_by_2
  rw [shift7_and_one, shift7_and_one, shift7_and_one]
  apply Nat.eq_of_testBit_eq
  intro i
  have h256 : (256 : Nat) = 2 ^ 8 := by norm_num
  simp only [h256, Nat.testBit_mod_two_pow, Nat.testBit_xor, Nat.testBit_shiftLeft]
  cases a.testBit 7 <;> cases b.testBit 7 <;> simp <;>
    cases decide (i < 8) <;> cases decide (1 ≤ i) <;>
    cases a.testBit (i - 1) <;> cases b.testBit (i - 1) <;> cases Nat.testBit 27 i <;> rfl

theorem gm2_lt (a : Nat) : galois_multiply_by_2 a < 256 := by
  unfold galois_multiply_by_2; omega

theorem xor_lt {a b : Nat} (ha : a < 256) (hb : b < 256) : a ^^^ b < 256 :=
  Nat.xor_lt_two_pow (n := 8) ha hb

theorem xor_left_comm (a b c : Nat) : a ^^^ (b ^^^ c) = b ^^^ (a ^^^ c) := by
  rw [← Nat.xor_assoc, ← Nat.xor_assoc, Nat.xor_comm a b]

theorem xor_cancel (a b : Nat) : a ^^^ (a ^^^ b) = b := by
  rw [← Nat.xor_assoc, Nat.xor_self, Nat.zero_xor]

theorem xor_xor_cancel (a b : Nat) : a ^^^ b ^^^ b = a := by
  rw [Nat.xor_assoc, Nat.xor_self, Nat.xor_zero]

theorem gm3_xor (a b : Nat) :
    galois_multiply_by_3 (a ^^^ b) = galois_multiply_by_3 a ^^^ galois_multiply_by_3 b := by
  simp only [galois_multiply_by_3, gm2_xor]
  ac_rfl

theorem gm3_lt {a : Nat} (ha : a < 256) : galois_multiply_by_3 a < 256 := by
  unfold galois_multiply_by_3
  have h2 := gm2_lt a
  exact xor_lt h2 ha

theorem gm9_xor (a b : Nat) :
    galois_multiply_by_9 (a ^^^ b) = galois_multiply_by_9 a ^^^ galois_multiply_by_9 b := by
  simp only [galois_multiply_by_9, gm2_xor]
  ac_rfl

theorem gm9_lt {a : Nat} (ha : a < 256) : galois_multiply_by_9 a < 256 := by
  unfold galois_multiply_by_9
  have h8 := gm2_lt (galois_multiply_by_2 (galois_multiply_by_2 a))
  exact xor_lt h8 ha

theorem gm11_xor (a b : Nat) :
    galois_multiply_by_11 (a ^^^ b) = galois_multiply_by_11 a ^^^ galois_multiply_by_11 b := by
  simp only [galois_multiply_by_11, gm2_xor]
  ac_rfl

theorem gm11_lt {a : Nat} (ha : a < 256) : galois_multiply_by_11 a < 256 := by
  unfold galois_multiply_by_11
  have h2 := gm2_lt a
  have h8 := gm2_lt (galois_multiply_by_2 (galois_multiply_by_2 a))
  exact xor_lt (xor_lt h8 h2) ha

theorem gm13_xor (a b : Nat) :
    galois_multiply_by_13 (a ^^^ b) = galois_multiply_by_13 a ^^^ galois_multiply_by_13 b := by
  simp only [galois_multiply_by_13, gm2_xor]
  ac_rfl

theorem gm13_lt {a : Nat} (ha : a < 256) : galois_multiply_by_13 a < 256 := by
  unfold galois_multiply_by_13
  have h4 := gm2_lt (galois_multiply_by_2 a)
  have h8 := gm2_lt (galois_multiply_by_2 (galois_multiply_by_2 a))
  exact xor_lt (xor_lt h8 h4) ha

theorem gm14_xor (a b : Nat) :
    galois_multiply_by_14 (a ^^^ b) = galois_multiply_by_14 a ^^^ galois_multiply_by_14 b := by
  simp only [galois_multiply_by_14, gm2_xor]
  ac_rfl

theorem gm14_lt (a : Nat) : galois_multiply_by_14 a < 256 := by
  unfold galois_multiply_by_14
  have h2 := gm2_lt a
  have h4 := gm2_lt (galois_multiply_by_2 a)
  have h8 := gm2_lt (galois_multiply_by_2 (galois_multiply_by_2 a))
  exact xor_lt (xor_lt h8 h4) h2

/-- Regrouping of a four by four xor sum from rows to columns. -/
theorem xor_regroup (a b c d e f g h i j k l m n o p : Nat) :
    (a ^^^ b ^^^ c ^^^ d) ^^^ (e ^^^ f ^^^ g ^^^ h) ^^^ (i ^^^ j ^^^ k ^^^ l) ^^^
        (m ^^^ n ^^^ o ^^^ p) =
      (a ^^^ e ^^^ i ^^^ m) ^^^ (b ^^^ f ^^^ j ^^^ n) ^^^ (c ^^^ g ^^^ k ^^^ o) ^^^
        (d ^^^ h ^^^ l ^^^ p) := by
  ac_rfl

theorem xor_pick0 {p q r s a : Nat} (hp : p = a) (hq : q = 0) (hr : r = 0) (hs : s = 0) :
    p ^^^ q ^^^ r ^^^ s = a := by
  subst hp hq hr hs; simp

theorem xor_pick1 {p q r s a : Nat} (hp : p = 0) (hq : q = a) (hr : r = 0) (hs : s = 0) :
    p ^^^ q ^^^ r ^^^ s = a := by
  subst hp hq hr hs; simp

theorem xor_pick2 {p q r s a : Nat} (hp : p = 0) (hq : q = 0) (hr : r = a) (hs : s = 0) :
    p ^^^ q ^^^ r ^^^ s = a := by
  subst hp hq hr hs; simp

theorem xor_pick3 {p q r s a : Nat} (hp : p = 0) (hq : q = 0) (hr : r = 0) (hs : s = a) :
    p ^^^ q ^^^ r ^^^ s = a := by
  subst hp hq hr hs; simp

theorem inv_mix_row0 (a0 a1 a2 a3 : Nat) :
    galois_multiply_by_14 (galois_multiply_by_2 a0 ^^^ galois_multiply_by_3 a1 ^^^ a2 ^^^ a3) ^^^
      galois_multiply_by_11 (a0 ^^^ galois_multiply_by_2 a1 ^^^ galois_multiply_by_3 a2 ^^^ a3) ^^^
      galois_multiply_by_13 (a0 ^^^ a1 ^^^ galois_multiply_by_2 a2 ^^^ galois_multiply_by_3 a3) ^^^
      galois_multiply_by_9 (galois_multiply_by_3 a0 ^^^ a1 ^^^ a2 ^^^ galois_multiply_by_2 a3) =
          a0 := by
  simp only [gm2_xor, gm3_xor, gm9_xor, gm11_xor, gm13_xor, gm14_xor]
  rw [xor_regroup]
  apply xor_pick0 <;>
    (simp only [galois_multiply_by_14, galois_multiply_by_11, galois_multiply_by_13,
      galois_multiply_by_9, galois_multiply_by_3, gm2_xor]
     simp only [Nat.xor_assoc, Nat.xor_comm, xor_left_comm, Nat.xor_self, Nat.xor_zero,
      xor_cancel])

theorem inv_mix_row1 (a0 a1 a2 a3 : Nat) :
    galois_multiply_by_9 (galois_multiply_by_2 a0 ^^^ galois_multiply_by_3 a1 ^^^ a2 ^^^ a3) ^^^
      galois_multiply_by_14 (a0 ^^^ galois_multiply_by_2 a1 ^^^ galois_multiply_by_3 a2 ^^^ a3) ^^^
      galois_multiply_by_11 (a0 ^^^ a1 ^^^ galois_multiply_by_2 a2 ^^^ galois_multiply_by_3 a3) ^^^
      galois_multiply_by_13 (galois_multiply_by_3 a0 ^^^ a1 ^^^ a2 ^^^ galois_multiply_by_2 a3) =
          a1 := by
  simp only [gm2_xor, gm3_xor, gm9_xor, gm11_xor, gm13_xor, gm14_xor]
  rw [xor_regroup]
  apply xor_pick1 <;>
    (simp only [galois_multiply_by_14, galois_multiply_by_11, galois_multiply_by_13,
      galois_multiply_by_9, galois_multiply_by_3, gm2_xor]
     simp only [Nat.xor_assoc, Nat.xor_comm, xor_left_comm, Nat.xor_self, Nat.xor_zero,
      xor_cancel])

theorem inv_mix_row2 (a0 a1 a2 a3 : Nat) :
    galois_multiply_by_13 (galois_multiply_by_2 a0 ^^^ galois_multiply_by_3 a1 ^^^ a2 ^^^ a3) ^^^
      galois_multiply_by_9 (a0 ^^^ galois_multiply_by_2 a1 ^^^ galois_multiply_by_3 a2 ^^^ a3) ^^^
      galois_multiply_by_14 (a0 ^^^ a1 ^^^ galois_multiply_by_2 a2 ^^^ galois_multiply_by_3 a3) ^^^
      galois_multiply_by_11 (galois_multiply_by_3 a0 ^^^ a1 ^^^ a2 ^^^ galois_multiply_by_2 a3) =
          a2 := by
  simp only [gm2_xor, gm3_xor, gm9_xor, gm11_xor, gm13_xor, gm14_xor]
  rw [xor_regroup]
  apply xor_pick2 <;>
    (simp only [galois_multiply_by_14, galois_multiply_by_11, galois_multiply_by_13,
      galois_multiply_by_9, galois_multiply_by_3, gm2_xor]
     simp only [Nat.xor_assoc, Nat.xor_comm, xor_left_comm, Nat.xor_self, Nat.xor_zero,
      xor_cancel])

theorem inv_mix_row3 (a0 a1 a2 a3 : Nat) :
    galois_multiply_by_11 (galois_multiply_by_2 a0 ^^^ galois_multiply_by_3 a1 ^^^ a2 ^^^ a3) ^^^
      galois_multiply_by_13 (a0 ^^^ galois_multiply_by_2 a1 ^^^ galois_multiply_by_3 a2 ^^^ a3) ^^^
      galois_multiply_by_9 (a0 ^^^ a1 ^^^ galois_multiply_by_2 a2 ^^^ galois_multiply_by_3 a3) ^^^
      galois_multiply_by_14 (galois_multiply_by_3 a0 ^^^ a1 ^^^ a2 ^^^ galois_multiply_by_2 a3) =
          a3 := by
  simp only [gm2_xor, gm3_xor, gm9_xor, gm11_xor, gm13_xor, gm14_xor]
  rw [xor_regroup]
  apply xor_pick3 <;>
    (simp only [galois_multiply_by_14, galois_multiply_by_11, galois_multiply_by_13,
      galois_multiply_by_9, galois_multiply_by_3, gm2_xor]
     simp only [Nat.xor_assoc, Nat.xor_comm, xor_left_comm, Nat.xor_self, Nat.xor_zero,
      xor_cancel])

theorem mix_inv_row0 (a0 a1 a2 a3 : Nat) :
    galois_multiply_by_2 (galois_multiply_by_14 a0 ^^^ galois_multiply_by_11 a1 ^^^
        galois_multiply_by_13 a2 ^^^ galois_multiply_by_9 a3) ^^^
      galois_multiply_by_3 (galois_multiply_by_9 a0 ^^^ galois_multiply_by_14 a1 ^^^
          galois_multiply_by_11 a2 ^^^ galois_multiply_by_13 a3) ^^^
      (galois_multiply_by_13 a0 ^^^ galois_multiply_by_9 a1 ^^^ galois_multiply_by_14 a2 ^^^
          galois_multiply_by_11 a3) ^^^
      (galois_multiply_by_11 a0 ^^^ galois_multiply_by_13 a1 ^^^ galois_multiply_by_9 a2 ^^^
          galois_multiply_by_14 a3) = a0 := by
  simp only [gm2_xor, gm3_xor, gm9_xor, gm11_xor, gm13_xor, gm14_xor]
  rw [xor_regroup]
  apply xor_pick0 <;>
    (simp only [galois_multiply_by_14, galois_multiply_by_11, galois_multiply_by_13,
      galois_multiply_by_9, galois_multiply_by_3, gm2_xor]
     simp only [Nat.xor_assoc, Nat.xor_comm, xor_left_comm, Nat.xor_self, Nat.xor_zero,
      xor_cancel])

theorem mix_inv_row1 (a0 a1 a2 a3 : Nat) :
    (galois_multiply_by_14 a0 ^^^ galois_multiply_by_11 a1 ^^^ galois_multiply_by_13 a2 ^^^
        galois_multiply_by_9 a3) ^^^
      galois_multiply_by_2 (galois_multiply_by_9 a0 ^^^ galois_multiply_by_14 a1 ^^^
          galois_multiply_by_11 a2 ^^^ galois_multiply_by_13 a3) ^^^
      galois_multiply_by_3 (galois_multiply_by_13 a0 ^^^ galois_multiply_by_9 a1 ^^^
          galois_multiply_by_14 a2 ^^^ galois_multiply_by_11 a3) ^^^
      (galois_multiply_by_11 a0 ^^^ galois_multiply_by_13 a1 ^^^ galois_multiply_by_9 a2 ^^^
          galois_multiply_by_14 a3) = a1 := by
  simp only [gm2_xor, gm3_xor, gm9_xor, gm11_xor, gm13_xor, gm14_xor]
  rw [xor_regroup]
  apply xor_pick1 <;>
    (simp only [galois_multiply_by_14, galois_multiply_by_11, galois_multiply_by_13,
      galois_multiply_by_9, galois_multiply_by_3, gm2_xor]
     simp only [Nat.xor_assoc, Nat.xor_comm, xor_left_comm, Nat.xor_self, Nat.xor_zero,
      xor_cancel])

theorem mix_inv_row2 (a0 a1 a2 a3 : Nat) :
    (galois_multiply_by_14 a0 ^^^ galois_multiply_by_11 a1 ^^^ galois_multiply_by_13 a2 ^^^
        galois_multiply_by_9 a3) ^^^
      (galois_multiply_by_9 a0 ^^^ galois_multiply_by_14 a1 ^^^ galois_multiply_by_11 a2 ^^^
          galois_multiply_by_13 a3) ^^^
      galois_multiply_by_2 (galois_multiply_by_13 a0 ^^^ galois_multiply_by_9 a1 ^^^
          galois_multiply_by_14 a2 ^^^ galois_multiply_by_11 a3) ^^^
      galois_multiply_by_3 (galois_multiply_by_11 a0 ^^^ galois_multiply_by_13 a1 ^^^
          galois_multiply_by_9 a2 ^^^ galois_multiply_by_14 a3) = a2 := by
  simp only [gm2_xor, gm3_xor, gm9_xor, gm11_xor, gm13_xor, gm14_xor]
  rw [xor_regroup]
  apply xor_pick2 <;>
    (simp only [galois_multiply_by_14, galois_multiply_by_11, galois_multiply_by_13,
      galois_multiply_by_9, galois_multiply_by_3, gm2_xor]
     simp only [Nat.xor_assoc, Nat.xor_comm, xor_left_comm, Nat.xor_self, Nat.xor_zero,
      xor_cancel])

theorem mix_inv_row3 (a0 a1 a2 a3 : Nat) :
    galois_multiply_by_3 (galois_multiply_by_14 a0 ^^^ galois_multiply_by_11 a1 ^^^
        galois_multiply_by_13 a2 ^^^ galois_multiply_by_9 a3) ^^^
      (galois_multiply_by_9 a0 ^^^ galois_multiply_by_14 a1 ^^^ galois_multiply_by_11 a2 ^^^
          galois_multiply_by_13 a3) ^^^
      (galois_multiply_by_13 a0 ^^^ galois_multiply_by_9 a1 ^^^ galois_multiply_by_14 a2 ^^^
          galois_multiply_by_11 a3) ^^^
      galois_multiply_by_2 (galois_multiply_by_11 a0 ^^^ galois_multiply_by_13 a1 ^^^
          galois_multiply_by_9 a2 ^^^ galois_multiply_by_14 a3) = a3 := by
  simp only [gm2_xor, gm3_xor, gm9_xor, gm11_xor, gm13_xor, gm14_xor]
  rw [xor_regroup]
  apply xor_pick3 <;>
    (simp only [galois_multiply_by_14, galois_multiply_by_11, galois_multiply_by_13,
      galois_multiply_by_9, galois_multiply_by_3, gm2_xor]
     simp only [Nat.xor_assoc, Nat.xor_comm, xor_left_comm, Nat.xor_self, Nat.xor_zero,
      xor_cancel])

/-! ## Sixteen-byte buffers as literals -/

theorem range4 : List.range 4 = [0, 1, 2, 3] := by decide

theorem range16 : List.range 16 = [0, 1, 2, 3, 4, 5, 6, 7, 8, 9, 10, 11, 12, 13, 14, 15] := by
  decide

theorem cons_of_length {b : List Nat} {n : Nat} (h : b.length = n + 1) :
    ∃ x t, b = x :: t ∧ t.length = n := by
  cases b with
  | nil => simp at h
  | cons x t => exact ⟨x, t, rfl, by simpa using h⟩

theorem cons_of_le_length {b : List Nat} {n : Nat} (h : n + 1 ≤ b.length) :
    ∃ x t, b = x :: t ∧ n ≤ t.length := by
  cases b with
  | nil => simp at h
  | cons x t => exact ⟨x, t, rfl, by simpa using h⟩

/-- A list of length sixteen is a sixteen-element literal. -/
theorem length16 {b : List Nat} (h : b.length = 16) :
    ∃ b0 b1 b2 b3 b4 b5 b6 b7 b8 b9 b10 b11 b12 b13 b14 b15,
      b = [b0, b1, b2, b3, b4, b5, b6, b7, b8, b9, b10, b11, b12, b13, b14, b15] := by
  obtain ⟨b0, t0, rfl, h0⟩ := cons_of_length h
  obtain ⟨b1, t1, rfl, h1⟩ := cons_of_length h0
  obtain ⟨b2, t2, rfl, h2⟩ := cons_of_length h1
  obtain ⟨b3, t3, rfl, h3⟩ := cons_of_length h2
  obtain ⟨b4, t4, rfl, h4⟩ := cons_of_length h3
  obtain ⟨b5, t5, rfl, h5⟩ := cons_of_length h4
  obtain ⟨b6, t6, rfl, h6⟩ := cons_of_length h5
  obtain ⟨b7, t7, rfl, h7⟩ := cons_of_length h6
  obtain ⟨b8, t8, rfl, h8⟩ := cons_of_length h7
  obtain ⟨b9, t9, rfl, h9⟩ := cons_of_length h8
  obtain ⟨b10, t10, rfl, h10⟩ := cons_of_length h9
  obtain ⟨b11, t11, rfl, h11⟩ := cons_of_length h10
  obtain ⟨b12, t12, rfl, h12⟩ := cons_of_length h11
  obtain ⟨b13, t13, rfl, h13⟩ := cons_of_length h12
  obtain ⟨b14, t14, rfl, h14⟩ := cons_of_length h13
  obtain ⟨b15, t15, rfl, h15⟩ := cons_of_length h14
  obtain rfl := List.length_eq_zero.mp h15
  exact ⟨b0, b1, b2, b3, b4, b5, b6, b7, b8, b9, b10, b11, b12, b13, b14, b15, rfl⟩

/-- A list of at least sixteen elements starts with sixteen elements. -/
theorem le_length16 {b : List Nat} (h : 16 ≤ b.length) :
    ∃ b0 b1 b2 b3 b4 b5 b6 b7 b8 b9 b10 b11 b12 b13 b14 b15 rest,
      b = b0 :: b1 :: b2 :: b3 :: b4 :: b5 :: b6 :: b7 :: b8 :: b9 :: b10 :: b11 :: b12 :: b13 ::
          b14 :: b15 :: rest := by
  obtain ⟨b0, t0, rfl, h0⟩ := cons_of_le_length h
  obtain ⟨b1, t1, rfl, h1⟩ := cons_of_le_length h0
  obtain ⟨b2, t2, rfl, h2⟩ := cons_of_le_length h1
  obtain ⟨b3, t3, rfl, h3⟩ := cons_of_le_length h2
  obtain ⟨b4, t4, rfl, h4⟩ := cons_of_le_length h3
  obtain ⟨b5, t5, rfl, h5⟩ := cons_of_le_length h4
  obtain ⟨b6, t6, rfl, h6⟩ := cons_of_le_length h5
  obtain ⟨b7, t7, rfl, h7⟩ := cons_of_le_length h6
  obtain ⟨b8, t8, rfl, h8⟩ := cons_of_le_length h7
  obtain ⟨b9, t9, rfl, h9⟩ := cons_of_le_length h8
  obtain ⟨b10, t10, rfl, h10⟩ := cons_of_le_length h9
  obtain ⟨b11, t11, rfl, h11⟩ := cons_of_le_length h10
  obtain ⟨b12, t12, rfl, h12⟩ := cons_of_le_length h11
  obtain ⟨b13, t13, rfl, h13⟩ := cons_of_le_length h12
  obtain ⟨b14, t14, rfl, h14⟩ := cons_of_le_length h13
  obtain ⟨b15, t15, rfl, h15⟩ := cons_of_le_length h14
  exact ⟨b0, b1, b2, b3, b4, b5, b6, b7, b8, b9, b10, b11, b12, b13, b14, b15, t15, rfl⟩

/-- A sixteen-byte buffer is a literal of sixteen bytes. -/
theorem IsBytes.literal {b : List Nat} (hb : IsBytes 16 b) :
    ∃ b0 b1 b2 b3 b4 b5 b6 b7 b8 b9 b10 b11 b12 b13 b14 b15 : Nat,
      (b0 < 256 ∧ b1 < 256 ∧ b2 < 256 ∧ b3 < 256 ∧ b4 < 256 ∧ b5 < 256 ∧ b6 < 256 ∧ b7 < 256 ∧
        b8 < 256 ∧ b9 < 256 ∧ b10 < 256 ∧ b11 < 256 ∧ b12 < 256 ∧ b13 < 256 ∧ b14 < 256 ∧
        b15 < 256) ∧
      b = [b0, b1, b2, b3, b4, b5, b6, b7, b8, b9, b10, b11, b12, b13, b14, b15] := by
  obtain ⟨hlen, hlt⟩ := hb
  obtain ⟨b0, b1, b2, b3, b4, b5, b6, b7, b8, b9, b10, b11, b12, b13, b14, b15, rfl⟩ :=
    length16 hlen
  simp only [List.mem_cons, List.mem_singleton, forall_eq_or_imp, forall_eq, List.not_mem_nil,
    false_imp_iff, implies_true, and_true] at hlt
  exact ⟨_, _, _, _, _, _, _, _, _, _, _, _, _, _, _, _, hlt, rfl⟩

theorem isBytes16_mk {b0 b1 b2 b3 b4 b5 b6 b7 b8 b9 b10 b11 b12 b13 b14 b15 : Nat}
    (h0 : b0 < 256) (h1 : b1 < 256) (h2 : b2 < 256) (h3 : b3 < 256) (h4 : b4 < 256)
      (h5 : b5 < 256) (h6 : b6 < 256) (h7 : b7 < 256) (h8 : b8 < 256) (h9 : b9 < 256)
      (h10 : b10 < 256) (h11 : b11 < 256) (h12 : b12 < 256) (h13 : b13 < 256) (h14 : b14 < 256)
      (h15 : b15 < 256) :
    IsBytes 16 [b0, b1, b2, b3, b4, b5, b6, b7, b8, b9, b10, b11, b12, b13, b14, b15] := by
  refine ⟨rfl, ?_⟩
  simp only [List.mem_cons, List.mem_singleton, forall_eq_or_imp, forall_eq, List.not_mem_nil,
    false_imp_iff, implies_true, and_true]
  exact ⟨h0, h1, h2, h3, h4, h5, h6, h7, h8, h9, h10, h11, h12, h13, h14, h15⟩

/-! ## Pure effect of the byte loops -/

theorem s_box_getD_lt (x : Nat) : s_box.getD x 0 < 256 := getD_lt s_box_lt x

theorem inv_s_box_getD_lt (x : Nat) : inv_s_box.getD x 0 < 256 := getD_lt inv_s_box_lt x

theorem sub_bytes_eq {b : List Nat} (hb : IsBytes 16 b) :
    sub_bytes b = .ok ((List.range 16).foldl sub_bytes_step b) := by
  refine (foldlM_inv (IsBytes 16) (List.range 16) ?_ b hb).1
  intro blk i hi hblk
  have hi16 : i < blk.length := by rw [hblk.1]; exact List.mem_range.mp hi
  refine ⟨?_, ?_, ?_⟩
  · exact bind_eq_of (rd_ok hi16) (bind_eq_of (rd_s_box (getD_lt hblk.2 i)) (wr_ok _ hi16))
  · simp [sub_bytes_step, hblk.1]
  · exact set_lt hblk.2 i (s_box_getD_lt _)

theorem invert_sub_bytes_eq {b : List Nat} (hb : IsBytes 16 b) :
    invert_sub_bytes b = .ok ((List.range 16).foldl invert_sub_bytes_step b) := by
  refine (foldlM_inv (IsBytes 16) (List.range 16) ?_ b hb).1
  intro blk i hi hblk
  have hi16 : i < blk.length := by rw [hblk.1]; exact List.mem_range.mp hi
  refine ⟨?_, ?_, ?_⟩
  · exact bind_eq_of (rd_ok hi16) (bind_eq_of (rd_inv_s_box (getD_lt hblk.2 i)) (wr_ok _ hi16))
  · simp [invert_sub_bytes_step, hblk.1]
  · exact set_lt hblk.2 i (inv_s_box_getD_lt _)

theorem add_round_key_eq {b k : List Nat} (hb : b.length = 16) (hk : 16 ≤ k.length) :
    add_round_key b k = .ok ((List.range 16).foldl (add_round_key_step k) b) := by
  refine (foldlM_inv (fun blk => blk.length = 16) (List.range 16) ?_ b hb).1
  intro blk i hi hblk
  have hi16 : i < 16 := List.mem_range.mp hi
  refine ⟨?_, ?_⟩
  · exact bind_eq_of (rd_ok (by omega)) (bind_eq_of (rd_ok (by omega)) (wr_ok _ (by omega)))
  · simp [add_round_key_step, hblk]

theorem memcpy_eq {dst src : List Nat} {n : Nat} (hd : n ≤ dst.length) (hs : n ≤ src.length) :
    memcpy dst src n = .ok ((List.range n).foldl (memcpy_step src) dst) := by
  refine (foldlM_inv (fun d => d.length = dst.length) (List.range n) ?_ dst rfl).1
  intro d j hj hd2
  have hjn : j < n := List.mem_range.mp hj
  refine ⟨?_, ?_⟩
  · exact bind_eq_of (rd_ok (by omega)) (wr_ok _ (by omega))
  · simp [memcpy_step, hd2]

/-! ## Closed forms of the block operations -/

theorem sub_bytes_ok {b0 b1 b2 b3 b4 b5 b6 b7 b8 b9 b10 b11 b12 b13 b14 b15 : Nat}
    (h0 : b0 < 256) (h1 : b1 < 256) (h2 : b2 < 256) (h3 : b3 < 256) (h4 : b4 < 256)
      (h5 : b5 < 256) (h6 : b6 < 256) (h7 : b7 < 256) (h8 : b8 < 256) (h9 : b9 < 256)
      (h10 : b10 < 256) (h11 : b11 < 256) (h12 : b12 < 256) (h13 : b13 < 256) (h14 : b14 < 256)
      (h15 : b15 < 256) :
    sub_bytes [b0, b1, b2, b3, b4, b5, b6, b7, b8, b9, b10, b11, b12, b13, b14, b15] =
      .ok [s_box.getD b0 0, s_box.getD b1 0, s_box.getD b2 0, s_box.getD b3 0, s_box.getD b4 0,
          s_box.getD b5 0, s_box.getD b6 0, s_box.getD b7 0, s_box.getD b8 0, s_box.getD b9 0,
          s_box.getD b10 0, s_box.getD b11 0, s_box.getD b12 0, s_box.getD b13 0,
          s_box.getD b14 0, s_box.getD b15 0] := by
  rw [sub_bytes_eq (isBytes16_mk h0 h1 h2 h3 h4 h5 h6 h7 h8 h9 h10 h11 h12 h13 h14 h15)]
  simp [range16, sub_bytes_step]

theorem invert_sub_bytes_ok {b0 b1 b2 b3 b4 b5 b6 b7 b8 b9 b10 b11 b12 b13 b14 b15 : Nat}
    (h0 : b0 < 256) (h1 : b1 < 256) (h2 : b2 < 256) (h3 : b3 < 256) (h4 : b4 < 256)
      (h5 : b5 < 256) (h6 : b6 < 256) (h7 : b7 < 256) (h8 : b8 < 256) (h9 : b9 < 256)
      (h10 : b10 < 256) (h11 : b11 < 256) (h12 : b12 < 256) (h13 : b13 < 256) (h14 : b14 < 256)
      (h15 : b15 < 256) :
    invert_sub_bytes [b0, b1, b2, b3, b4, b5, b6, b7, b8, b9, b10, b11, b12, b13, b14, b15] =
      .ok [inv_s_box.getD b0 0, inv_s_box.getD b1 0, inv_s_box.getD b2 0, inv_s_box.getD b3 0,
          inv_s_box.getD b4 0, inv_s_box.getD b5 0, inv_s_box.getD b6 0, inv_s_box.getD b7 0,
          inv_s_box.getD b8 0, inv_s_box.getD b9 0, inv_s_box.getD b10 0, inv_s_box.getD b11 0,
          inv_s_box.getD b12 0, inv_s_box.getD b13 0, inv_s_box.getD b14 0,
              inv_s_box.getD b15 0] := by
  rw [invert_sub_bytes_eq (isBytes16_mk h0 h1 h2 h3 h4 h5 h6 h7 h8 h9 h10 h11 h12 h13 h14 h15)]
  simp [range16, invert_sub_bytes_step]

theorem add_round_key_ok (b0 b1 b2 b3 b4 b5 b6 b7 b8 b9 b10 b11 b12 b13 b14 b15 : Nat)
    (k0 k1 k2 k3 k4 k5 k6 k7 k8 k9 k10 k11 k12 k13 k14 k15 : Nat) (rest : List Nat) :
    add_round_key [b0, b1, b2, b3, b4, b5, b6, b7, b8, b9, b10, b11, b12, b13, b14, b15]
        (k0 :: k1 :: k2 :: k3 :: k4 :: k5 :: k6 :: k7 :: k8 :: k9 :: k10 :: k11 :: k12 :: k13 ::
            k14 :: k15 :: rest) =
      .ok [b0 ^^^ k0, b1 ^^^ k1, b2 ^^^ k2, b3 ^^^ k3, b4 ^^^ k4, b5 ^^^ k5, b6 ^^^ k6, b7 ^^^ k7,
          b8 ^^^ k8, b9 ^^^ k9, b10 ^^^ k10, b11 ^^^ k11, b12 ^^^ k12, b13 ^^^ k13, b14 ^^^ k14,
          b15 ^^^ k15] := by
  refine (add_round_key_eq (by rfl) (by simp)).trans ?_
  simp [range16, add_round_key_step]

theorem memcpy16_ok (b0 b1 b2 b3 b4 b5 b6 b7 b8 b9 b10 b11 b12 b13 b14 b15 : Nat)
    (rest : List Nat) :
    memcpy (List.replicate 16 0)
        (b0 :: b1 :: b2 :: b3 :: b4 :: b5 :: b6 :: b7 :: b8 :: b9 :: b10 :: b11 :: b12 :: b13 ::
            b14 :: b15 :: rest) 16 =
      .ok [b0, b1, b2, b3, b4, b5, b6, b7, b8, b9, b10, b11, b12, b13, b14, b15] := by
  refine (memcpy_eq (by simp) (by simp)).trans ?_
  simp [range16, memcpy_step, List.replicate]

theorem shift_rows_ok (b0 b1 b2 b3 b4 b5 b6 b7 b8 b9 b10 b11 b12 b13 b14 b15 : Nat) :
    shift_rows [b0, b1, b2, b3, b4, b5, b6, b7, b8, b9, b10, b11, b12, b13, b14, b15] =
      .ok [b0, b5, b10, b15, b4, b9, b14, b3, b8, b13, b2, b7, b12, b1, b6, b11] := by
  rfl

theorem invert_shift_rows_ok (b0 b1 b2 b3 b4 b5 b6 b7 b8 b9 b10 b11 b12 b13 b14 b15 : Nat) :
    invert_shift_rows [b0, b1, b2, b3, b4, b5, b6, b7, b8, b9, b10, b11, b12, b13, b14, b15] =
      .ok [b0, b13, b10, b7, b4, b1, b14, b11, b8, b5, b2, b15, b12, b9, b6, b3] := by
  rfl

theorem mix_columns_col_ok0 (b0 b1 b2 b3 b4 b5 b6 b7 b8 b9 b10 b11 b12 b13 b14 b15 : Nat) :
    mix_columns_col [b0, b1, b2, b3, b4, b5, b6, b7, b8, b9, b10, b11, b12, b13, b14, b15] 0 =
      .ok [galois_multiply_by_2 b0 ^^^ galois_multiply_by_3 b1 ^^^ b2 ^^^ b3,
          b0 ^^^ galois_multiply_by_2 b1 ^^^ galois_multiply_by_3 b2 ^^^ b3,
          b0 ^^^ b1 ^^^ galois_multiply_by_2 b2 ^^^ galois_multiply_by_3 b3,
          galois_multiply_by_3 b0 ^^^ b1 ^^^ b2 ^^^ galois_multiply_by_2 b3, b4, b5, b6, b7, b8,
          b9, b10, b11, b12, b13, b14, b15] := by
  rfl

theorem mix_columns_col_ok1 (b0 b1 b2 b3 b4 b5 b6 b7 b8 b9 b10 b11 b12 b13 b14 b15 : Nat) :
    mix_columns_col [b0, b1, b2, b3, b4, b5, b6, b7, b8, b9, b10, b11, b12, b13, b14, b15] 1 =
      .ok [b0, b1, b2, b3, galois_multiply_by_2 b4 ^^^ galois_multiply_by_3 b5 ^^^ b6 ^^^ b7,
          b4 ^^^ galois_multiply_by_2 b5 ^^^ galois_multiply_by_3 b6 ^^^ b7,
          b4 ^^^ b5 ^^^ galois_multiply_by_2 b6 ^^^ galois_multiply_by_3 b7,
          galois_multiply_by_3 b4 ^^^ b5 ^^^ b6 ^^^ galois_multiply_by_2 b7, b8, b9, b10, b11,
          b12, b13, b14, b15] := by
  rfl

theorem mix_columns_col_ok2 (b0 b1 b2 b3 b4 b5 b6 b7 b8 b9 b10 b11 b12 b13 b14 b15 : Nat) :
    mix_columns_col [b0, b1, b2, b3, b4, b5, b6, b7, b8, b9, b10, b11, b12, b13, b14, b15] 2 =
      .ok [b0, b1, b2, b3, b4, b5, b6, b7,
          galois_multiply_by_2 b8 ^^^ galois_multiply_by_3 b9 ^^^ b10 ^^^ b11,
          b8 ^^^ galois_multiply_by_2 b9 ^^^ galois_multiply_by_3 b10 ^^^ b11,
          b8 ^^^ b9 ^^^ galois_multiply_by_2 b10 ^^^ galois_multiply_by_3 b11,
          galois_multiply_by_3 b8 ^^^ b9 ^^^ b10 ^^^ galois_multiply_by_2 b11, b12, b13, b14,
              b15] := by
  rfl

theorem mix_columns_col_ok3 (b0 b1 b2 b3 b4 b5 b6 b7 b8 b9 b10 b11 b12 b13 b14 b15 : Nat) :
    mix_columns_col [b0, b1, b2, b3, b4, b5, b6, b7, b8, b9, b10, b11, b12, b13, b14, b15] 3 =
      .ok [b0, b1, b2, b3, b4, b5, b6, b7, b8, b9, b10, b11,
          galois_multiply_by_2 b12 ^^^ galois_multiply_by_3 b13 ^^^ b14 ^^^ b15,
          b12 ^^^ galois_multiply_by_2 b13 ^^^ galois_multiply_by_3 b14 ^^^ b15,
          b12 ^^^ b13 ^^^ galois_multiply_by_2 b14 ^^^ galois_multiply_by_3 b15,
          galois_multiply_by_3 b12 ^^^ b13 ^^^ b14 ^^^ galois_multiply_by_2 b15] := by
  rfl

theorem mix_columns_ok (b0 b1 b2 b3 b4 b5 b6 b7 b8 b9 b10 b11 b12 b13 b14 b15 : Nat) :
    mix_columns [b0, b1, b2, b3, b4, b5, b6, b7, b8, b9, b10, b11, b12, b13, b14, b15] =
      .ok [galois_multiply_by_2 b0 ^^^ galois_multiply_by_3 b1 ^^^ b2 ^^^ b3,
          b0 ^^^ galois_multiply_by_2 b1 ^^^ galois_multiply_by_3 b2 ^^^ b3,
          b0 ^^^ b1 ^^^ galois_multiply_by_2 b2 ^^^ galois_multiply_by_3 b3,
          galois_multiply_by_3 b0 ^^^ b1 ^^^ b2 ^^^ galois_multiply_by_2 b3,
          galois_multiply_by_2 b4 ^^^ galois_multiply_by_3 b5 ^^^ b6 ^^^ b7,
          b4 ^^^ galois_multiply_by_2 b5 ^^^ galois_multiply_by_3 b6 ^^^ b7,
          b4 ^^^ b5 ^^^ galois_multiply_by_2 b6 ^^^ galois_multiply_by_3 b7,
          galois_multiply_by_3 b4 ^^^ b5 ^^^ b6 ^^^ galois_multiply_by_2 b7,
          galois_multiply_by_2 b8 ^^^ galois_multiply_by_3 b9 ^^^ b10 ^^^ b11,
          b8 ^^^ galois_multiply_by_2 b9 ^^^ galois_multiply_by_3 b10 ^^^ b11,
          b8 ^^^ b9 ^^^ galois_multiply_by_2 b10 ^^^ galois_multiply_by_3 b11,
          galois_multiply_by_3 b8 ^^^ b9 ^^^ b10 ^^^ galois_multiply_by_2 b11,
          galois_multiply_by_2 b12 ^^^ galois_multiply_by_3 b13 ^^^ b14 ^^^ b15,
          b12 ^^^ galois_multiply_by_2 b13 ^^^ galois_multiply_by_3 b14 ^^^ b15,
          b12 ^^^ b13 ^^^ galois_multiply_by_2 b14 ^^^ galois_multiply_by_3 b15,
          galois_multiply_by_3 b12 ^^^ b13 ^^^ b14 ^^^ galois_multiply_by_2 b15] := by
  unfold mix_columns
  rw [range4]
  exact bind_eq_of (mix_columns_col_ok0 ..) (bind_eq_of (mix_columns_col_ok1 ..)
    (bind_eq_of (mix_columns_col_ok2 ..) (bind_eq_of (mix_columns_col_ok3 ..) rfl)))

theorem invert_mix_columns_col_ok0 (b0 b1 b2 b3 b4 b5 b6 b7 b8 b9 b10 b11 b12 b13 b14 b15 : Nat) :
    invert_mix_columns_col [b0, b1, b2, b3, b4, b5, b6, b7, b8, b9, b10, b11, b12, b13, b14,
        b15] 0 =
      .ok [galois_multiply_by_14 b0 ^^^ galois_multiply_by_11 b1 ^^^
          galois_multiply_by_13 b2 ^^^ galois_multiply_by_9 b3,
          galois_multiply_by_9 b0 ^^^ galois_multiply_by_14 b1 ^^^ galois_multiply_by_11 b2 ^^^
              galois_multiply_by_13 b3,
          galois_multiply_by_13 b0 ^^^ galois_multiply_by_9 b1 ^^^ galois_multiply_by_14 b2 ^^^
              galois_multiply_by_11 b3,
          galois_multiply_by_11 b0 ^^^ galois_multiply_by_13 b1 ^^^ galois_multiply_by_9 b2 ^^^
              galois_multiply_by_14 b3,
          b4, b5, b6, b7, b8, b9, b10, b11, b12, b13, b14, b15] := by
  rfl

theorem invert_mix_columns_col_ok1 (b0 b1 b2 b3 b4 b5 b6 b7 b8 b9 b10 b11 b12 b13 b14 b15 : Nat) :
    invert_mix_columns_col [b0, b1, b2, b3, b4, b5, b6, b7, b8, b9, b10, b11, b12, b13, b14,
        b15] 1 =
      .ok [b0, b1, b2, b3,
          galois_multiply_by_14 b4 ^^^ galois_multiply_by_11 b5 ^^^
              galois_multiply_by_13 b6 ^^^ galois_multiply_by_9 b7,
          galois_multiply_by_9 b4 ^^^ galois_multiply_by_14 b5 ^^^ galois_multiply_by_11 b6 ^^^
              galois_multiply_by_13 b7,
          galois_multiply_by_13 b4 ^^^ galois_multiply_by_9 b5 ^^^ galois_multiply_by_14 b6 ^^^
              galois_multiply_by_11 b7,
          galois_multiply_by_11 b4 ^^^ galois_multiply_by_13 b5 ^^^ galois_multiply_by_9 b6 ^^^
              galois_multiply_by_14 b7,
          b8, b9, b10, b11, b12, b13, b14, b15] := by
  rfl

theorem invert_mix_columns_col_ok2 (b0 b1 b2 b3 b4 b5 b6 b7 b8 b9 b10 b11 b12 b13 b14 b15 : Nat) :
    invert_mix_columns_col [b0, b1, b2, b3, b4, b5, b6, b7, b8, b9, b10, b11, b12, b13, b14,
        b15] 2 =
      .ok [b0, b1, b2, b3, b4, b5, b6, b7,
          galois_multiply_by_14 b8 ^^^ galois_multiply_by_11 b9 ^^^
              galois_multiply_by_13 b10 ^^^ galois_multiply_by_9 b11,
          galois_multiply_by_9 b8 ^^^ galois_multiply_by_14 b9 ^^^
              galois_multiply_by_11 b10 ^^^ galois_multiply_by_13 b11,
          galois_multiply_by_13 b8 ^^^ galois_multiply_by_9 b9 ^^^
              galois_multiply_by_14 b10 ^^^ galois_multiply_by_11 b11,
          galois_multiply_by_11 b8 ^^^ galois_multiply_by_13 b9 ^^^
              galois_multiply_by_9 b10 ^^^ galois_multiply_by_14 b11,
          b12, b13, b14, b15] := by
  rfl

theorem invert_mix_columns_col_ok3 (b0 b1 b2 b3 b4 b5 b6 b7 b8 b9 b10 b11 b12 b13 b14 b15 : Nat) :
    invert_mix_columns_col [b0, b1, b2, b3, b4, b5, b6, b7, b8, b9, b10, b11, b12, b13, b14,
        b15] 3 =
      .ok [b0, b1, b2, b3, b4, b5, b6, b7, b8, b9, b10, b11,
          galois_multiply_by_14 b12 ^^^ galois_multiply_by_11 b13 ^^^
              galois_multiply_by_13 b14 ^^^ galois_multiply_by_9 b15,
          galois_multiply_by_9 b12 ^^^ galois_multiply_by_14 b13 ^^^
              galois_multiply_by_11 b14 ^^^ galois_multiply_by_13 b15,
          galois_multiply_by_13 b12 ^^^ galois_multiply_by_9 b13 ^^^
              galois_multiply_by_14 b14 ^^^ galois_multiply_by_11 b15,
          galois_multiply_by_11 b12 ^^^ galois_multiply_by_13 b13 ^^^
              galois_multiply_by_9 b14 ^^^ galois_multiply_by_14 b15] := by
  rfl

theorem invert_mix_columns_ok (b0 b1 b2 b3 b4 b5 b6 b7 b8 b9 b10 b11 b12 b13 b14 b15 : Nat) :
    invert_mix_columns [b0, b1, b2, b3, b4, b5, b6, b7, b8, b9, b10, b11, b12, b13, b14, b15] =
      .ok [galois_multiply_by_14 b0 ^^^ galois_multiply_by_11 b1 ^^^
          galois_multiply_by_13 b2 ^^^ galois_multiply_by_9 b3,
          galois_multiply_by_9 b0 ^^^ galois_multiply_by_14 b1 ^^^ galois_multiply_by_11 b2 ^^^
              galois_multiply_by_13 b3,
          galois_multiply_by_13 b0 ^^^ galois_multiply_by_9 b1 ^^^ galois_multiply_by_14 b2 ^^^
              galois_multiply_by_11 b3,
          galois_multiply_by_11 b0 ^^^ galois_multiply_by_13 b1 ^^^ galois_multiply_by_9 b2 ^^^
              galois_multiply_by_14 b3,
          galois_multiply_by_14 b4 ^^^ galois_multiply_by_11 b5 ^^^
              galois_multiply_by_13 b6 ^^^ galois_multiply_by_9 b7,
          galois_multiply_by_9 b4 ^^^ galois_multiply_by_14 b5 ^^^ galois_multiply_by_11 b6 ^^^
              galois_multiply_by_13 b7,
          galois_multiply_by_13 b4 ^^^ galois_multiply_by_9 b5 ^^^ galois_multiply_by_14 b6 ^^^
              galois_multiply_by_11 b7,
          galois_multiply_by_11 b4 ^^^ galois_multiply_by_13 b5 ^^^ galois_multiply_by_9 b6 ^^^
              galois_multiply_by_14 b7,
          galois_multiply_by_14 b8 ^^^ galois_multiply_by_11 b9 ^^^
              galois_multiply_by_13 b10 ^^^ galois_multiply_by_9 b11,
          galois_multiply_by_9 b8 ^^^ galois_multiply_by_14 b9 ^^^
              galois_multiply_by_11 b10 ^^^ galois_multiply_by_13 b11,
          galois_multiply_by_13 b8 ^^^ galois_multiply_by_9 b9 ^^^
              galois_multiply_by_14 b10 ^^^ galois_multiply_by_11 b11,
          galois_multiply_by_11 b8 ^^^ galois_multiply_by_13 b9 ^^^
              galois_multiply_by_9 b10 ^^^ galois_multiply_by_14 b11,
          galois_multiply_by_14 b12 ^^^ galois_multiply_by_11 b13 ^^^
              galois_multiply_by_13 b14 ^^^ galois_multiply_by_9 b15,
          galois_multiply_by_9 b12 ^^^ galois_multiply_by_14 b13 ^^^
              galois_multiply_by_11 b14 ^^^ galois_multiply_by_13 b15,
          galois_multiply_by_13 b12 ^^^ galois_multiply_by_9 b13 ^^^
              galois_multiply_by_14 b14 ^^^ galois_multiply_by_11 b15,
          galois_multiply_by_11 b12 ^^^ galois_multiply_by_13 b13 ^^^
              galois_multiply_by_9 b14 ^^^ galois_multiply_by_14 b15] := by
  unfold invert_mix_columns
  rw [range4]
  exact bind_eq_of (invert_mix_columns_col_ok0 ..) (bind_eq_of (invert_mix_columns_col_ok1 ..)
    (bind_eq_of (invert_mix_columns_col_ok2 ..) (bind_eq_of (invert_mix_columns_col_ok3 ..) rfl)))

/-! ## Each inverse operation undoes its forward operation -/

theorem sub_bytes_pair {b : List Nat} (hb : IsBytes 16 b) :
    ∃ c, sub_bytes b = .ok c ∧ IsBytes 16 c ∧ invert_sub_bytes c = .ok b := by
  obtain ⟨b0, b1, b2, b3, b4, b5, b6, b7, b8, b9, b10, b11, b12, b13, b14, b15,
    ⟨h0, h1, h2, h3, h4, h5, h6, h7, h8, h9, h10, h11, h12, h13, h14, h15⟩,
        rfl⟩ := IsBytes.literal hb
  refine ⟨_, sub_bytes_ok h0 h1 h2 h3 h4 h5 h6 h7 h8 h9 h10 h11 h12 h13 h14 h15, ?_, ?_⟩
  · exact isBytes16_mk (s_box_getD_lt _) (s_box_getD_lt _) (s_box_getD_lt _) (s_box_getD_lt _)
      (s_box_getD_lt _)
        (s_box_getD_lt _) (s_box_getD_lt _) (s_box_getD_lt _) (s_box_getD_lt _) (s_box_getD_lt _)
        (s_box_getD_lt _) (s_box_getD_lt _) (s_box_getD_lt _) (s_box_getD_lt _) (s_box_getD_lt _)
        (s_box_getD_lt _)
  · rw [invert_sub_bytes_ok (s_box_getD_lt _) (s_box_getD_lt _) (s_box_getD_lt _)
      (s_box_getD_lt _) (s_box_getD_lt _)
        (s_box_getD_lt _) (s_box_getD_lt _) (s_box_getD_lt _) (s_box_getD_lt _) (s_box_getD_lt _)
        (s_box_getD_lt _) (s_box_getD_lt _) (s_box_getD_lt _) (s_box_getD_lt _) (s_box_getD_lt _)
        (s_box_getD_lt _)]
    simp only [inv_s_box_s_box _ h0, inv_s_box_s_box _ h1, inv_s_box_s_box _ h2,
        inv_s_box_s_box _ h3,
        inv_s_box_s_box _ h4, inv_s_box_s_box _ h5, inv_s_box_s_box _ h6, inv_s_box_s_box _ h7,
        inv_s_box_s_box _ h8, inv_s_box_s_box _ h9, inv_s_box_s_box _ h10, inv_s_box_s_box _ h11,
        inv_s_box_s_box _ h12, inv_s_box_s_box _ h13, inv_s_box_s_box _ h14, inv_s_box_s_box _ h15]

theorem invert_sub_bytes_pair {b : List Nat} (hb : IsBytes 16 b) :
    ∃ c, invert_sub_bytes b = .ok c ∧ IsBytes 16 c ∧ sub_bytes c = .ok b := by
  obtain ⟨b0, b1, b2, b3, b4, b5, b6, b7, b8, b9, b10, b11, b12, b13, b14, b15,
    ⟨h0, h1, h2, h3, h4, h5, h6, h7, h8, h9, h10, h11, h12, h13, h14, h15⟩,
        rfl⟩ := IsBytes.literal hb
  refine ⟨_, invert_sub_bytes_ok h0 h1 h2 h3 h4 h5 h6 h7 h8 h9 h10 h11 h12 h13 h14 h15, ?_, ?_⟩
  · exact isBytes16_mk (inv_s_box_getD_lt _) (inv_s_box_getD_lt _) (inv_s_box_getD_lt _)
      (inv_s_box_getD_lt _)
        (inv_s_box_getD_lt _) (inv_s_box_getD_lt _) (inv_s_box_getD_lt _) (inv_s_box_getD_lt _)
        (inv_s_box_getD_lt _) (inv_s_box_getD_lt _) (inv_s_box_getD_lt _) (inv_s_box_getD_lt _)
        (inv_s_box_getD_lt _) (inv_s_box_getD_lt _) (inv_s_box_getD_lt _) (inv_s_box_getD_lt _)
  · rw [sub_bytes_ok (inv_s_box_getD_lt _) (inv_s_box_getD_lt _) (inv_s_box_getD_lt _)
      (inv_s_box_getD_lt _)
        (inv_s_box_getD_lt _) (inv_s_box_getD_lt _) (inv_s_box_getD_lt _) (inv_s_box_getD_lt _)
        (inv_s_box_getD_lt _) (inv_s_box_getD_lt _) (inv_s_box_getD_lt _) (inv_s_box_getD_lt _)
        (inv_s_box_getD_lt _) (inv_s_box_getD_lt _) (inv_s_box_getD_lt _) (inv_s_box_getD_lt _)]
    simp only [s_box_inv_s_box _ h0, s_box_inv_s_box _ h1, s_box_inv_s_box _ h2,
        s_box_inv_s_box _ h3,
        s_box_inv_s_box _ h4, s_box_inv_s_box _ h5, s_box_inv_s_box _ h6, s_box_inv_s_box _ h7,
        s_box_inv_s_box _ h8, s_box_inv_s_box _ h9, s_box_inv_s_box _ h10, s_box_inv_s_box _ h11,
        s_box_inv_s_box _ h12, s_box_inv_s_box _ h13, s_box_inv_s_box _ h14, s_box_inv_s_box _ h15]

theorem shift_rows_pair {b : List Nat} (hb : IsBytes 16 b) :
    ∃ c, shift_rows b = .ok c ∧ IsBytes 16 c ∧ invert_shift_rows c = .ok b := by
  obtain ⟨b0, b1, b2, b3, b4, b5, b6, b7, b8, b9, b10, b11, b12, b13, b14, b15,
    ⟨h0, h1, h2, h3, h4, h5, h6, h7, h8, h9, h10, h11, h12, h13, h14, h15⟩,
        rfl⟩ := IsBytes.literal hb
  exact ⟨_, shift_rows_ok .., isBytes16_mk h0 h5 h10 h15 h4 h9 h14 h3 h8 h13 h2 h7 h12 h1 h6 h11,
    invert_shift_rows_ok ..⟩

theorem invert_shift_rows_pair {b : List Nat} (hb : IsBytes 16 b) :
    ∃ c, invert_shift_rows b = .ok c ∧ IsBytes 16 c ∧ shift_rows c = .ok b := by
  obtain ⟨b0, b1, b2, b3, b4, b5, b6, b7, b8, b9, b10, b11, b12, b13, b14, b15,
    ⟨h0, h1, h2, h3, h4, h5, h6, h7, h8, h9, h10, h11, h12, h13, h14, h15⟩,
        rfl⟩ := IsBytes.literal hb
  exact ⟨_, invert_shift_rows_ok ..,
      isBytes16_mk h0 h13 h10 h7 h4 h1 h14 h11 h8 h5 h2 h15 h12 h9 h6 h3,
    shift_rows_ok ..⟩

theorem mix_columns_pair {b : List Nat} (hb : IsBytes 16 b) :
    ∃ c, mix_columns b = .ok c ∧ IsBytes 16 c ∧ invert_mix_columns c = .ok b := by
  obtain ⟨b0, b1, b2, b3, b4, b5, b6, b7, b8, b9, b10, b11, b12, b13, b14, b15,
    ⟨h0, h1, h2, h3, h4, h5, h6, h7, h8, h9, h10, h11, h12, h13, h14, h15⟩,
        rfl⟩ := IsBytes.literal hb
  refine ⟨_, mix_columns_ok .., ?_, ?_⟩
  · exact isBytes16_mk
      (xor_lt (xor_lt (xor_lt (gm2_lt _) (gm3_lt h1)) h2) h3)
      (xor_lt (xor_lt (xor_lt h0 (gm2_lt _)) (gm3_lt h2)) h3)
      (xor_lt (xor_lt (xor_lt h0 h1) (gm2_lt _)) (gm3_lt h3))
      (xor_lt (xor_lt (xor_lt (gm3_lt h0) h1) h2) (gm2_lt _))
      (xor_lt (xor_lt (xor_lt (gm2_lt _) (gm3_lt h5)) h6) h7)
      (xor_lt (xor_lt (xor_lt h4 (gm2_lt _)) (gm3_lt h6)) h7)
      (xor_lt (xor_lt (xor_lt h4 h5) (gm2_lt _)) (gm3_lt h7))
      (xor_lt (xor_lt (xor_lt (gm3_lt h4) h5) h6) (gm2_lt _))
      (xor_lt (xor_lt (xor_lt (gm2_lt _) (gm3_lt h9)) h10) h11)
      (xor_lt (xor_lt (xor_lt h8 (gm2_lt _)) (gm3_lt h10)) h11)
      (xor_lt (xor_lt (xor_lt h8 h9) (gm2_lt _)) (gm3_lt h11))
      (xor_lt (xor_lt (xor_lt (gm3_lt h8) h9) h10) (gm2_lt _))
      (xor_lt (xor_lt (xor_lt (gm2_lt _) (gm3_lt h13)) h14) h15)
      (xor_lt (xor_lt (xor_lt h12 (gm2_lt _)) (gm3_lt h14)) h15)
      (xor_lt (xor_lt (xor_lt h12 h13) (gm2_lt _)) (gm3_lt h15))
      (xor_lt (xor_lt (xor_lt (gm3_lt h12) h13) h14) (gm2_lt _))
  · rw [invert_mix_columns_ok]
    simp only [inv_mix_row0, inv_mix_row1, inv_mix_row2, inv_mix_row3]

theorem invert_mix_columns_pair {b : List Nat} (hb : IsBytes 16 b) :
    ∃ c, invert_mix_columns b = .ok c ∧ IsBytes 16 c ∧ mix_columns c = .ok b := by
  obtain ⟨b0, b1, b2, b3, b4, b5, b6, b7, b8, b9, b10, b11, b12, b13, b14, b15,
    ⟨h0, h1, h2, h3, h4, h5, h6, h7, h8, h9, h10, h11, h12, h13, h14, h15⟩,
        rfl⟩ := IsBytes.literal hb
  refine ⟨_, invert_mix_columns_ok .., ?_, ?_⟩
  · exact isBytes16_mk
      (xor_lt (xor_lt (xor_lt (gm14_lt _) (gm11_lt h1)) (gm13_lt h2)) (gm9_lt h3))
      (xor_lt (xor_lt (xor_lt (gm9_lt h0) (gm14_lt _)) (gm11_lt h2)) (gm13_lt h3))
      (xor_lt (xor_lt (xor_lt (gm13_lt h0) (gm9_lt h1)) (gm14_lt _)) (gm11_lt h3))
      (xor_lt (xor_lt (xor_lt (gm11_lt h0) (gm13_lt h1)) (gm9_lt h2)) (gm14_lt _))
      (xor_lt (xor_lt (xor_lt (gm14_lt _) (gm11_lt h5)) (gm13_lt h6)) (gm9_lt h7))
      (xor_lt (xor_lt (xor_lt (gm9_lt h4) (gm14_lt _)) (gm11_lt h6)) (gm13_lt h7))
      (xor_lt (xor_lt (xor_lt (gm13_lt h4) (gm9_lt h5)) (gm14_lt _)) (gm11_lt h7))
      (xor_lt (xor_lt (xor_lt (gm11_lt h4) (gm13_lt h5)) (gm9_lt h6)) (gm14_lt _))
      (xor_lt (xor_lt (xor_lt (gm14_lt _) (gm11_lt h9)) (gm13_lt h10)) (gm9_lt h11))
      (xor_lt (xor_lt (xor_lt (gm9_lt h8) (gm14_lt _)) (gm11_lt h10)) (gm13_lt h11))
      (xor_lt (xor_lt (xor_lt (gm13_lt h8) (gm9_lt h9)) (gm14_lt _)) (gm11_lt h11))
      (xor_lt (xor_lt (xor_lt (gm11_lt h8) (gm13_lt h9)) (gm9_lt h10)) (gm14_lt _))
      (xor_lt (xor_lt (xor_lt (gm14_lt _) (gm11_lt h13)) (gm13_lt h14)) (gm9_lt h15))
      (xor_lt (xor_lt (xor_lt (gm9_lt h12) (gm14_lt _)) (gm11_lt h14)) (gm13_lt h15))
      (xor_lt (xor_lt (xor_lt (gm13_lt h12) (gm9_lt h13)) (gm14_lt _)) (gm11_lt h15))
      (xor_lt (xor_lt (xor_lt (gm11_lt h12) (gm13_lt h13)) (gm9_lt h14)) (gm14_lt _))
  · rw [mix_columns_ok]
    simp only [mix_inv_row0, mix_inv_row1, mix_inv_row2, mix_inv_row3]

theorem add_round_key_pair {b k : List Nat} (hb : IsBytes 16 b) (hk : 16 ≤ k.length)
    (hkb : ∀ x ∈ k, x < 256) :
    ∃ c, add_round_key b k = .ok c ∧ IsBytes 16 c ∧ add_round_key c k = .ok b := by
  obtain ⟨k0, k1, k2, k3, k4, k5, k6, k7, k8, k9, k10, k11, k12, k13, k14, k15, rest, rfl⟩ :=
    le_length16 hk
  obtain ⟨b0, b1, b2, b3, b4, b5, b6, b7, b8, b9, b10, b11, b12, b13, b14, b15,
    ⟨h0, h1, h2, h3, h4, h5, h6, h7, h8, h9, h10, h11, h12, h13, h14, h15⟩,
        rfl⟩ := IsBytes.literal hb
  simp only [List.mem_cons, forall_eq_or_imp] at hkb
  obtain ⟨g0, g1, g2, g3, g4, g5, g6, g7, g8, g9, g10, g11, g12, g13, g14, g15, _⟩ := hkb
  refine ⟨_, add_round_key_ok .., ?_, ?_⟩
  · exact isBytes16_mk (xor_lt h0 g0) (xor_lt h1 g1) (xor_lt h2 g2) (xor_lt h3 g3) (xor_lt h4 g4)
      (xor_lt h5 g5)
        (xor_lt h6 g6) (xor_lt h7 g7) (xor_lt h8 g8) (xor_lt h9 g9) (xor_lt h10 g10)
        (xor_lt h11 g11) (xor_lt h12 g12) (xor_lt h13 g13) (xor_lt h14 g14) (xor_lt h15 g15)
  · rw [add_round_key_ok]
    simp only [xor_xor_cancel]

/-! ## Key schedule -/

theorem range'_4_12 : List.range' 4 12 = [4, 5, 6, 7, 8, 9, 10, 11, 12, 13, 14, 15] := by
  decide

theorem key_recurrence_congr {E E' : List Nat} {i : Nat} (h1 : 1 ≤ i)
    (h : ∀ k, k < 16 * (i + 1) → E'.getD k 0 = E.getD k 0) (hE : key_recurrence E i) :
    key_recurrence E' i := by
  obtain ⟨r0, r1, r2, r3, r4⟩ := hE
  refine ⟨?_, ?_, ?_, ?_, ?_⟩
  · rw [h _ (by omega), h _ (by omega), h _ (by omega)]; exact r0
  · rw [h _ (by omega), h _ (by omega), h _ (by omega)]; exact r1
  · rw [h _ (by omega), h _ (by omega), h _ (by omega)]; exact r2
  · rw [h _ (by omega), h _ (by omega), h _ (by omega)]; exact r3
  · intro j h4 h15
    rw [h _ (by omega), h _ (by omega), h _ (by omega)]; exact r4 j h4 h15

theorem take_set_of_le {l : List Nat} {m n : Nat} (a : Nat) (h : m ≤ n) :
    (l.set n a).take m = l.take m := by
  induction l generalizing m n with
  | nil => simp
  | cons x l ih =>
    cases m with
    | zero => simp
    | succ m =>
      cases n with
      | zero => omega
      | succ n => simp only [List.set_cons_succ, List.take_succ_cons, ih (by omega : m ≤ n)]

section
attribute [local irreducible] rd wr

set_option maxHeartbeats 1000000 in
set_option maxRecDepth 10000 in
/-- One round of the key schedule never faults on a 176-byte schedule; it rewrites round key
`i` only, and the new round key satisfies the recurrence. -/
theorem expand_key_round_spec {ek : List Nat} {i : Nat} (hlen : ek.length = 176)
    (hb : ∀ x ∈ ek, x < 256) (h1 : 1 ≤ i) (h10 : i ≤ 10) :
    ∃ ek', expand_key_round ek i = .ok ek' ∧ ek'.length = 176 ∧ (∀ x ∈ ek', x < 256) ∧
      ek'.take 16 = ek.take 16 ∧ (∀ k, k < 16 * i → ek'.getD k 0 = ek.getD k 0) ∧
      key_recurrence ek' i := by
  apply Exists.intro
  refine ⟨?_, ?_, ?_, ?_, ?_, ?_⟩
  · unfold expand_key_round
    simp only [KEY_SIZE, range4, range'_4_12, List.foldlM_cons, List.foldlM_nil, bind_assoc,
      pure_bind, Nat.reduceSub, Nat.add_zero]
    repeat (first
      | refine bind_eq_of (rd_eq
          (by simp only [List.length_set, List.length_replicate, hlen, rcon_length]; omega)
          (by first
            | (simp (disch := first
                  | omega
                  | (simp only [List.length_set, List.length_replicate, hlen]; omega)) only
                [getD_set_ne, getD_set_eq]
               first | done | rfl)
            | rfl)) ?_
      | refine bind_eq_of (wr_ok _
          (by simp only [List.length_set, List.length_replicate, hlen]; omega)) ?_
      | refine bind_eq_of (rd_s_box (getD_lt hb _)) ?_)
    rfl
  · simp only [List.length_set, hlen]
  · iterate 16 refine set_lt ?_ _ ?_
    exact hb
    all_goals
      repeat (first
        | exact getD_lt hb _
        | exact s_box_getD_lt _
        | exact getD_lt rcon_lt _
        | apply xor_lt)
  · simp (disch := omega) only [take_set_of_le]
  · intro k hk
    simp (disch := omega) only [getD_set_ne]
  · refine ⟨?_, ?_, ?_, ?_, ?_⟩
    · simp (disch := first
          | omega
          | (simp only [List.length_set, hlen]; omega)) only
        [getD_set_ne, getD_set_eq, Nat.mul_comm 16, Nat.xor_assoc]
    · simp (disch := first
          | omega
          | (simp only [List.length_set, hlen]; omega)) only
        [getD_set_ne, getD_set_eq, Nat.mul_comm 16]
    · simp (disch := first
          | omega
          | (simp only [List.length_set, hlen]; omega)) only
        [getD_set_ne, getD_set_eq, Nat.mul_comm 16]
    · simp (disch := first
          | omega
          | (simp only [List.length_set, hlen]; omega)) only
        [getD_set_ne, getD_set_eq, Nat.mul_comm 16]
    · intro j h4 h15
      interval_cases j <;>
        simp (disch := first
            | omega
            | (simp only [List.length_set, hlen]; omega)) only
          [getD_set_ne, getD_set_eq, Nat.mul_comm 16, Nat.reduceSub, Nat.add_zero]

end

theorem expand_key_rounds {ek0 : List Nat} (hlen : ek0.length = 176)
    (hb : ∀ x ∈ ek0, x < 256) (n : Nat) (hn : n ≤ 10) :
    ∃ E, (List.range' 1 n).foldlM expand_key_round ek0 = .ok E ∧ E.length = 176 ∧
      (∀ x ∈ E, x < 256) ∧ E.take 16 = ek0.take 16 ∧
      ∀ i, 1 ≤ i → i ≤ n → key_recurrence E i := by
  induction n with
  | zero => exact ⟨ek0, rfl, hlen, hb, rfl, fun i h1 h0 => by omega⟩
  | succ n ih =>
    obtain ⟨E, hE, hl, hbE, ht, hr⟩ := ih (by omega)
    obtain ⟨E', hE', hl', hb', ht', hf', hr'⟩ :=
      expand_key_round_spec hl hbE (i := n + 1) (by omega) hn
    refine ⟨E', ?_, hl', hb', ht'.trans ht, ?_⟩
    · rw [List.range'_1_concat, List.foldlM_append, hE, Nat.add_comm 1 n]
      exact bind_eq_of rfl (bind_eq_of hE' rfl)
    · intro i h1 hi
      by_cases h : i = n + 1
      · subst h; exact hr'
      · exact key_recurrence_congr h1 (fun k hk => hf' k (by omega)) (hr i h1 (by omega))

theorem replicate_176 :
    List.replicate EXPANDED_KEY_SIZE 0 =
      0 :: 0 :: 0 :: 0 :: 0 :: 0 :: 0 :: 0 :: 0 :: 0 :: 0 :: 0 :: 0 :: 0 :: 0 :: 0 ::
        List.replicate 160 0 := by
  rfl

theorem memcpy_key_ok (k0 k1 k2 k3 k4 k5 k6 k7 k8 k9 k10 k11 k12 k13 k14 k15 : Nat) :
    memcpy (List.replicate EXPANDED_KEY_SIZE 0)
        [k0, k1, k2, k3, k4, k5, k6, k7, k8, k9, k10, k11, k12, k13, k14, k15] KEY_SIZE =
      .ok (k0 :: k1 :: k2 :: k3 :: k4 :: k5 :: k6 :: k7 :: k8 :: k9 :: k10 :: k11 :: k12 ::
          k13 :: k14 :: k15 ::
        List.replicate 160 0) := by
  refine (memcpy_eq (by rw [List.length_replicate]; decide)
    (by exact Nat.le_refl 16)).trans ?_
  rw [replicate_176]
  simp [KEY_SIZE, range16, memcpy_step]

/-- Key expansion never faults on a 16-byte key; it yields 176 bytes that start with the key
and satisfy the recurrence in every round. -/
theorem expand_key_spec {K : List Nat} (hK : IsBytes 16 K) :
    ∃ E, expand_key K = .ok E ∧ IsBytes 176 E ∧ E.take 16 = K ∧
      ∀ i, 1 ≤ i → i ≤ 10 → key_recurrence E i := by
  obtain ⟨k0, k1, k2, k3, k4, k5, k6, k7, k8, k9, k10, k11, k12, k13, k14, k15,
    ⟨h0, h1, h2, h3, h4, h5, h6, h7, h8, h9, h10, h11, h12, h13, h14, h15⟩,
        rfl⟩ := IsBytes.literal hK
  have hlen : (k0 :: k1 :: k2 :: k3 :: k4 :: k5 :: k6 :: k7 :: k8 :: k9 :: k10 :: k11 :: k12 ::
      k13 :: k14 :: k15 ::
      List.replicate 160 0).length = 176 := by
    simp only [List.length_cons, List.length_replicate]
  have hb : ∀ x ∈ k0 :: k1 :: k2 :: k3 :: k4 :: k5 :: k6 :: k7 :: k8 :: k9 :: k10 :: k11 ::
      k12 :: k13 :: k14 :: k15 ::
      List.replicate 160 0, x < 256 := by
    simp only [List.mem_cons, forall_eq_or_imp, List.mem_replicate]
    refine ⟨h0, h1, h2, h3, h4, h5, h6, h7, h8, h9, h10, h11, h12, h13, h14, h15, ?_⟩
    rintro x ⟨-, rfl⟩
    decide
  obtain ⟨E, hE, hl, hbE, ht, hr⟩ := expand_key_rounds hlen hb 10 (Nat.le_refl 10)
  refine ⟨E, ?_, ⟨hl, hbE⟩, ?_, hr⟩
  · unfold expand_key
    exact bind_eq_of (memcpy_key_ok ..) hE
  · rw [ht]; rfl

/-! ## Round structure -/

theorem sub_shift_pair {s : List Nat} (hs : IsBytes 16 s) :
    ∃ s' w, sub_bytes s = .ok s' ∧ shift_rows s' = .ok w ∧ IsBytes 16 w ∧
      invert_shift_rows w = .ok s' ∧ invert_sub_bytes s' = .ok s := by
  obtain ⟨s', h1, v1, h2⟩ := sub_bytes_pair hs
  obtain ⟨w, h3, v3, h4⟩ := shift_rows_pair v1
  exact ⟨s', w, h1, h3, v3, h4, h2⟩

theorem inv_shift_sub_pair {c : List Nat} (hc : IsBytes 16 c) :
    ∃ c' w, invert_shift_rows c = .ok c' ∧ invert_sub_bytes c' = .ok w ∧ IsBytes 16 w ∧
      sub_bytes w = .ok c' ∧ shift_rows c' = .ok c := by
  obtain ⟨c', h1, v1, h2⟩ := invert_shift_rows_pair hc
  obtain ⟨w, h3, v3, h4⟩ := invert_sub_bytes_pair v1
  exact ⟨c', w, h1, h3, v3, h4, h2⟩

theorem memcpy_block {b : List Nat} (hb : b.length = 16) :
    memcpy (List.replicate BLOCK_SIZE 0) b BLOCK_SIZE = .ok b := by
  obtain ⟨b0, b1, b2, b3, b4, b5, b6, b7, b8, b9, b10, b11, b12, b13, b14, b15, rfl⟩ :=
    length16 hb
  exact memcpy16_ok ..

theorem round_key_ok {ek : List Nat} (hek : IsBytes 176 ek) {r : Nat} (hr : r ≤ 10) :
    16 ≤ (ek.drop (r * KEY_SIZE)).length ∧ ∀ x ∈ ek.drop (r * KEY_SIZE), x < 256 := by
  refine ⟨?_, fun x hx => hek.2 x (List.mem_of_mem_drop hx)⟩
  rw [List.length_drop, hek.1]
  simp only [KEY_SIZE]
  omega

theorem countdown_9 : countdown (NUM_ROUNDS - 1) = (List.range' 1 (NUM_ROUNDS - 1)).reverse := by
  decide

theorem round_le {r : Nat} (h : r ∈ List.range' 1 (NUM_ROUNDS - 1)) : r ≤ 10 := by
  rw [List.mem_range'_1] at h
  simp only [NUM_ROUNDS] at h
  omega

/-- Loop rule for inverses: if one iteration of `g` after `F` undoes one iteration of `f`
before `F`, then running `g` over the reversed range undoes running `f` over the range. -/
theorem foldlM_inverse {f g : List Nat → Nat → Except Fault (List Nat)}
    {F : List Nat → Except Fault (List Nat)} {V : List Nat → Prop} {R : Nat → Prop}
    (step : ∀ s r, V s → R r →
      ∃ s1, f s r = .ok s1 ∧ V s1 ∧ (F s1 >>= fun u => g u r) = F s) :
    ∀ L : List Nat, (∀ r ∈ L, R r) → ∀ s, V s →
      ∃ t, L.foldlM f s = .ok t ∧ V t ∧ (F t >>= fun u => L.reverse.foldlM g u) = F s := by
  intro L
  induction L with
  | nil =>
    intro _ s hs
    exact ⟨s, rfl, hs, by simp⟩
  | cons r L ih =>
    intro hR s hs
    obtain ⟨s1, h1, v1, e1⟩ := step s r hs (hR r (List.mem_cons_self _ _))
    obtain ⟨t, ht, vt, et⟩ := ih (fun q hq => hR q (List.mem_cons_of_mem _ hq)) s1 v1
    refine ⟨t, bind_eq_of h1 ht, vt, ?_⟩
    rw [← e1, ← et]
    simp only [List.reverse_cons, List.foldlM_append, List.foldlM_cons, List.foldlM_nil,
      bind_assoc, bind_pure]

theorem encrypt_round_step {ek : List Nat} (hek : IsBytes 176 ek) (s : List Nat) (r : Nat)
    (hs : IsBytes 16 s) (hr : r ≤ 10) :
    ∃ s1, encrypt_round ek s r = .ok s1 ∧ IsBytes 16 s1 ∧
      (sub_shift s1 >>= fun u => decrypt_round ek u r) = sub_shift s := by
  obtain ⟨hk, hkb⟩ := round_key_ok hek hr
  obtain ⟨s', w, a1, a2, vw, _, _⟩ := sub_shift_pair hs
  obtain ⟨m, a3, vm, a4⟩ := mix_columns_pair vw
  obtain ⟨s1, a5, v1, a6⟩ := add_round_key_pair vm hk hkb
  obtain ⟨t', u, b1, b2, _, b3, b4⟩ := sub_shift_pair v1
  refine ⟨s1, bind_eq_of a1 (bind_eq_of a2 (bind_eq_of a3 a5)), v1, ?_⟩
  have hF : sub_shift s = .ok w := bind_eq_of a1 a2
  have hF1 : sub_shift s1 = .ok u := bind_eq_of b1 b2
  rw [hF, hF1]
  exact bind_eq_of rfl (bind_eq_of b3 (bind_eq_of b4 (bind_eq_of a6 a4)))

theorem decrypt_round_step {ek : List Nat} (hek : IsBytes 176 ek) (c : List Nat) (r : Nat)
    (hc : IsBytes 16 c) (hr : r ≤ 10) :
    ∃ c1, decrypt_round ek c r = .ok c1 ∧ IsBytes 16 c1 ∧
      (inv_shift_sub c1 >>= fun u => encrypt_round ek u r) = inv_shift_sub c := by
  obtain ⟨hk, hkb⟩ := round_key_ok hek hr
  obtain ⟨c', w, a1, a2, vw, _, _⟩ := inv_shift_sub_pair hc
  obtain ⟨a, a3, va, a4⟩ := add_round_key_pair vw hk hkb
  obtain ⟨c1, a5, v1, a6⟩ := invert_mix_columns_pair va
  obtain ⟨t', u, b1, b2, _, b3, b4⟩ := inv_shift_sub_pair v1
  refine ⟨c1, bind_eq_of a1 (bind_eq_of a2 (bind_eq_of a3 a5)), v1, ?_⟩
  have hG : inv_shift_sub c = .ok w := bind_eq_of a1 a2
  have hG1 : inv_shift_sub c1 = .ok u := bind_eq_of b1 b2
  rw [hG, hG1]
  exact bind_eq_of rfl (bind_eq_of b3 (bind_eq_of b4 (bind_eq_of a6 a4)))

/-- Decryption undoes encryption, with every intermediate step free of faults. -/
theorem decrypt_encrypt {B K : List Nat} (hB : IsBytes 16 B) (hK : IsBytes 16 K) :
    ∃ C, aes_encrypt_block B K = .ok C ∧ IsBytes 16 C ∧ aes_decrypt_block C K = .ok B := by
  obtain ⟨ek, hek, vek, _, _⟩ := expand_key_spec hK
  obtain ⟨hk10, hkb10⟩ := round_key_ok vek (Nat.le_refl 10)
  obtain ⟨s0, a1, v0, a2⟩ := add_round_key_pair hB (by rw [vek.1]; decide) vek.2
  obtain ⟨t, a3, vt, a4⟩ :=
    foldlM_inverse (encrypt_round_step vek) (List.range' 1 (NUM_ROUNDS - 1))
      (fun r hr => round_le hr) s0 v0
  obtain ⟨t', u, a5, a6, vu, _, _⟩ := sub_shift_pair vt
  obtain ⟨C, a7, vC, a8⟩ := add_round_key_pair vu hk10 hkb10
  obtain ⟨s0', w0, b1, b2, _, b3, b4⟩ := sub_shift_pair v0
  have hFt : sub_shift t = .ok u := bind_eq_of a5 a6
  have hF0 : sub_shift s0 = .ok w0 := bind_eq_of b1 b2
  rw [hFt, hF0, ← countdown_9] at a4
  refine ⟨C, ?_, vC, ?_⟩
  · exact bind_eq_of (memcpy_block hB.1) (bind_eq_of hek (bind_eq_of a1 (bind_eq_of a3
      (bind_eq_of a5 (bind_eq_of a6 a7)))))
  · exact bind_eq_of (memcpy_block vC.1) (bind_eq_of hek (bind_eq_of a8 (bind_eq_of a4
      (bind_eq_of b3 (bind_eq_of b4 a2)))))

/-- Encryption undoes decryption, with every intermediate step free of faults. -/
theorem encrypt_decrypt {C K : List Nat} (hC : IsBytes 16 C) (hK : IsBytes 16 K) :
    ∃ B, aes_decrypt_block C K = .ok B ∧ IsBytes 16 B ∧ aes_encrypt_block B K = .ok C := by
  obtain ⟨ek, hek, vek, _, _⟩ := expand_key_spec hK
  obtain ⟨hk10, hkb10⟩ := round_key_ok vek (Nat.le_refl 10)
  obtain ⟨c0, a1, v0, a2⟩ := add_round_key_pair hC hk10 hkb10
  have hrev : ∀ r ∈ countdown (NUM_ROUNDS - 1), r ≤ 10 := by
    intro r hr
    rw [countdown_9, List.mem_reverse] at hr
    exact round_le hr
  obtain ⟨t, a3, vt, a4⟩ :=
    foldlM_inverse (decrypt_round_step vek) (countdown (NUM_ROUNDS - 1)) hrev c0 v0
  obtain ⟨t', u, a5, a6, vu, _, _⟩ := inv_shift_sub_pair vt
  obtain ⟨B, a7, vB, a8⟩ := add_round_key_pair vu (by rw [vek.1]; decide) vek.2
  obtain ⟨c0', w0, b1, b2, _, b3, b4⟩ := inv_shift_sub_pair v0
  have hGt : inv_shift_sub t = .ok u := bind_eq_of a5 a6
  have hG0 : inv_shift_sub c0 = .ok w0 := bind_eq_of b1 b2
  rw [hGt, hG0, countdown_9, List.reverse_reverse] at a4
  refine ⟨B, ?_, vB, ?_⟩
  · exact bind_eq_of (memcpy_block hC.1) (bind_eq_of hek (bind_eq_of a1 (bind_eq_of a3
      (bind_eq_of a5 (bind_eq_of a6 a7)))))
  · exact bind_eq_of (memcpy_block vB.1) (bind_eq_of hek (bind_eq_of a8 (bind_eq_of a4
      (bind_eq_of b3 (bind_eq_of b4 a2)))))

/-! ## Claims -/

/-- C1: for every 16-byte block `B` and every 16-byte key `K`, `aes_encrypt_block B K`
returns a 16-byte ciphertext `C`, and `aes_decrypt_block C K` returns `B`. -/
theorem aes_decrypt_encrypt_round_trip (B K : List Nat) (hB : IsBytes 16 B)
    (hK : IsBytes 16 K) :
    ∃ C, aes_encrypt_block B K = .ok C ∧ IsBytes 16 C ∧ aes_decrypt_block C K = .ok B :=
  decrypt_encrypt hB hK

theorem aes_decrypt_encrypt_round_trip_witness :
    IsBytes 16 [0x32, 0x43, 0xf6, 0xa8, 0x88, 0x5a, 0x30, 0x8d, 0x31, 0x31, 0x98, 0xa2, 0xe0,
        0x37, 0x07, 0x34] ∧
      IsBytes 16 [0x2b, 0x7e, 0x15, 0x16, 0x28, 0xae, 0xd2, 0xa6, 0xab, 0xf7, 0x15, 0x88, 0x09,
        0xcf, 0x4f, 0x3c] ∧
      ∃ C,
        aes_encrypt_block
            [0x32, 0x43, 0xf6, 0xa8, 0x88, 0x5a, 0x30, 0x8d, 0x31, 0x31, 0x98, 0xa2, 0xe0, 0x37,
              0x07, 0x34]
            [0x2b, 0x7e, 0x15, 0x16, 0x28, 0xae, 0xd2, 0xa6, 0xab, 0xf7, 0x15, 0x88, 0x09, 0xcf,
              0x4f, 0x3c] = .ok C ∧
          IsBytes 16 C ∧
          aes_decrypt_block C
            [0x2b, 0x7e, 0x15, 0x16, 0x28, 0xae, 0xd2, 0xa6, 0xab, 0xf7, 0x15, 0x88, 0x09, 0xcf,
              0x4f, 0x3c] =
            .ok [0x32, 0x43, 0xf6, 0xa8, 0x88, 0x5a, 0x30, 0x8d, 0x31, 0x31, 0x98, 0xa2, 0xe0,
              0x37, 0x07, 0x34] :=
  ⟨by decide, by decide, aes_decrypt_encrypt_round_trip _ _ (by decide) (by decide)⟩

set_option maxRecDepth 100000 in
/-- Key schedule of the FIPS-197 example key `00 01 .. 0f`. -/
theorem expand_key_fips197 :
    expand_key
        [0x00, 0x01, 0x02, 0x03, 0x04, 0x05, 0x06, 0x07, 0x08, 0x09, 0x0a, 0x0b, 0x0c, 0x0d,
          0x0e, 0x0f] =
      .ok [0, 1, 2, 3, 4, 5, 6, 7, 8, 9, 10, 11, 12, 13, 14, 15, 214, 170, 116, 253, 210, 175, 114,
        250, 218, 166, 120, 241, 214, 171, 118, 254, 182, 146, 207, 11, 100, 61, 189, 241, 190,
        155, 197, 0, 104, 48, 179, 254, 182, 255, 116, 78, 210, 194, 201, 191, 108, 89, 12, 191,
        4, 105, 191, 65, 71, 247, 247, 188, 149, 53, 62, 3, 249, 108, 50, 188, 253, 5, 141, 253,
        60, 170, 163, 232, 169, 159, 157, 235, 80, 243, 175, 87, 173, 246, 34, 170, 94, 57, 15,
        125, 247, 166, 146, 150, 167, 85, 61, 193, 10, 163, 31, 107, 20, 249, 112, 26, 227, 95,
        226, 140, 68, 10, 223, 77, 78, 169, 192, 38, 71, 67, 135, 53, 164, 28, 101, 185, 224, 22,
        186, 244, 174, 191, 122, 210, 84, 153, 50, 209, 240, 133, 87, 104, 16, 147, 237, 156, 190,
        44, 151, 78, 19, 17, 29, 127, 227, 148, 74, 23, 243, 7, 167, 139, 77, 43, 48, 197] := by
  decide!

set_option maxRecDepth 100000 in
/-- Evaluation of `aes_encrypt_block` on the FIPS-197 example plaintext and key. -/
theorem fips197_encrypt :
    aes_encrypt_block
        [0x00, 0x11, 0x22, 0x33, 0x44, 0x55, 0x66, 0x77, 0x88, 0x99, 0xaa, 0xbb, 0xcc, 0xdd,
          0xee, 0xff]
        [0x00, 0x01, 0x02, 0x03, 0x04, 0x05, 0x06, 0x07, 0x08, 0x09, 0x0a, 0x0b, 0x0c, 0x0d,
          0x0e, 0x0f] =
      .ok [0x69, 0xc4, 0xe0, 0xd8, 0x6a, 0x7b, 0x04, 0x30, 0xd8, 0xcd, 0xb7, 0x80, 0x70, 0xb4,
        0xc5, 0x5a] :=
  bind_eq_of (memcpy_block rfl) (bind_eq_of expand_key_fips197 (by decide!))

/-- C2: on the FIPS-197 vector (plaintext `00 11 .. ff`, key `00 01 .. 0f`)
`aes_encrypt_block` returns exactly `69 c4 e0 d8 6a 7b 04 30 d8 cd b7 80 70 b4 c5 5a`. -/
theorem aes_encrypt_block_fips197 :
    aes_encrypt_block
        [0x00, 0x11, 0x22, 0x33, 0x44, 0x55, 0x66, 0x77, 0x88, 0x99, 0xaa, 0xbb, 0xcc, 0xdd,
          0xee, 0xff]
        [0x00, 0x01, 0x02, 0x03, 0x04, 0x05, 0x06, 0x07, 0x08, 0x09, 0x0a, 0x0b, 0x0c, 0x0d,
          0x0e, 0x0f] =
      .ok [0x69, 0xc4, 0xe0, 0xd8, 0x6a, 0x7b, 0x04, 0x30, 0xd8, 0xcd, 0xb7, 0x80, 0x70, 0xb4,
        0xc5, 0x5a] :=
  fips197_encrypt

/-- C3: on the FIPS-197 vector (ciphertext `69 c4 .. 5a`, key `00 01 .. 0f`)
`aes_decrypt_block` returns exactly the plaintext `00 11 22 .. ff`. -/
theorem aes_decrypt_block_fips197 :
    aes_decrypt_block
        [0x69, 0xc4, 0xe0, 0xd8, 0x6a, 0x7b, 0x04, 0x30, 0xd8, 0xcd, 0xb7, 0x80, 0x70, 0xb4,
          0xc5, 0x5a]
        [0x00, 0x01, 0x02, 0x03, 0x04, 0x05, 0x06, 0x07, 0x08, 0x09, 0x0a, 0x0b, 0x0c, 0x0d,
          0x0e, 0x0f] =
      .ok [0x00, 0x11, 0x22, 0x33, 0x44, 0x55, 0x66, 0x77, 0x88, 0x99, 0xaa, 0xbb, 0xcc, 0xdd,
        0xee, 0xff] := by
  obtain ⟨C, h1, _, h2⟩ :=
    decrypt_encrypt
      (B := [0x00, 0x11, 0x22, 0x33, 0x44, 0x55, 0x66, 0x77, 0x88, 0x99, 0xaa, 0xbb, 0xcc, 0xdd,
        0xee, 0xff])
      (K := [0x00, 0x01, 0x02, 0x03, 0x04, 0x05, 0x06, 0x07, 0x08, 0x09, 0x0a, 0x0b, 0x0c, 0x0d,
        0x0e, 0x0f])
      (by decide) (by decide)
  have hC : Except.ok C = (Except.ok [0x69, 0xc4, 0xe0, 0xd8, 0x6a, 0x7b, 0x04, 0x30, 0xd8,
      0xcd, 0xb7, 0x80, 0x70, 0xb4, 0xc5, 0x5a] : Except Fault (List Nat)) :=
    h1.symm.trans fips197_encrypt
  cases hC
  exact h2

/-- C4: under a fixed 16-byte key `K`, encryption and decryption are inverse bijections of the
16-byte blocks: decrypting an encryption returns the plaintext, and for every 16-byte block
`C` the block `aes_decrypt_block C K` is a 16-byte block whose encryption is `C`. -/
theorem aes_encrypt_block_bijective (K : List Nat) (hK : IsBytes 16 K) :
    (∀ B, IsBytes 16 B →
        ∃ C, aes_encrypt_block B K = .ok C ∧ IsBytes 16 C ∧ aes_decrypt_block C K = .ok B) ∧
      ∀ C, IsBytes 16 C →
        ∃ B, aes_decrypt_block C K = .ok B ∧ IsBytes 16 B ∧ aes_encrypt_block B K = .ok C :=
  ⟨fun _ hB => decrypt_encrypt hB hK, fun _ hC => encrypt_decrypt hC hK⟩

theorem aes_encrypt_block_bijective_witness :
    IsBytes 16 [0x2b, 0x7e, 0x15, 0x16, 0x28, 0xae, 0xd2, 0xa6, 0xab, 0xf7, 0x15, 0x88, 0x09,
        0xcf, 0x4f, 0x3c] ∧
      ((∀ B, IsBytes 16 B →
          ∃ C,
            aes_encrypt_block B
                [0x2b, 0x7e, 0x15, 0x16, 0x28, 0xae, 0xd2, 0xa6, 0xab, 0xf7, 0x15, 0x88, 0x09,
                  0xcf, 0x4f, 0x3c] = .ok C ∧
              IsBytes 16 C ∧
              aes_decrypt_block C
                [0x2b, 0x7e, 0x15, 0x16, 0x28, 0xae, 0xd2, 0xa6, 0xab, 0xf7, 0x15, 0x88, 0x09,
                  0xcf, 0x4f, 0x3c] = .ok B) ∧
        ∀ C, IsBytes 16 C →
          ∃ B,
            aes_decrypt_block C
                [0x2b, 0x7e, 0x15, 0x16, 0x28, 0xae, 0xd2, 0xa6, 0xab, 0xf7, 0x15, 0x88, 0x09,
                  0xcf, 0x4f, 0x3c] = .ok B ∧
              IsBytes 16 B ∧
              aes_encrypt_block B
                [0x2b, 0x7e, 0x15, 0x16, 0x28, 0xae, 0xd2, 0xa6, 0xab, 0xf7, 0x15, 0x88, 0x09,
                  0xcf, 0x4f, 0x3c] = .ok C) :=
  ⟨by decide, aes_encrypt_block_bijective _ (by decide)⟩

/-- C5: for every 16-byte key `K`, `expand_key K` returns a 176-byte schedule `E` whose first
16 bytes are `K` and in which, for every round `i` in 1..10 with `P` the bytes at
`16 (i - 1) ..` and `R` the bytes at `16 i ..`: `R[0] = P[0] xor s_box[P[13]] xor rcon[i-1]`,
`R[1] = P[1] xor s_box[P[14]]`, `R[2] = P[2] xor s_box[P[15]]`,
`R[3] = P[3] xor s_box[P[12]]`, and `R[j] = P[j] xor R[j-4]` for `j` in 4..15. -/
theorem expand_key_recurrence (K : List Nat) (hK : IsBytes 16 K) :
    ∃ E, expand_key K = .ok E ∧ IsBytes 176 E ∧ E.take 16 = K ∧
      ∀ i, 1 ≤ i → i ≤ 10 →
        E.getD (16 * i) 0 =
            E.getD (16 * (i - 1)) 0 ^^^ s_box.getD (E.getD (16 * (i - 1) + 13) 0) 0 ^^^
              rcon.getD (i - 1) 0 ∧
          E.getD (16 * i + 1) 0 =
            E.getD (16 * (i - 1) + 1) 0 ^^^ s_box.getD (E.getD (16 * (i - 1) + 14) 0) 0 ∧
          E.getD (16 * i + 2) 0 =
            E.getD (16 * (i - 1) + 2) 0 ^^^ s_box.getD (E.getD (16 * (i - 1) + 15) 0) 0 ∧
          E.getD (16 * i + 3) 0 =
            E.getD (16 * (i - 1) + 3) 0 ^^^ s_box.getD (E.getD (16 * (i - 1) + 12) 0) 0 ∧
          ∀ j, 4 ≤ j → j ≤ 15 →
            E.getD (16 * i + j) 0 =
              E.getD (16 * (i - 1) + j) 0 ^^^ E.getD (16 * i + (j - 4)) 0 :=
  expand_key_spec hK

theorem expand_key_recurrence_witness :
    IsBytes 16 [0x2b, 0x7e, 0x15, 0x16, 0x28, 0xae, 0xd2, 0xa6, 0xab, 0xf7, 0x15, 0x88, 0x09,
        0xcf, 0x4f, 0x3c] ∧
      ∃ E,
        expand_key
            [0x2b, 0x7e, 0x15, 0x16, 0x28, 0xae, 0xd2, 0xa6, 0xab, 0xf7, 0x15, 0x88, 0x09, 0xcf,
              0x4f, 0x3c] = .ok E ∧
          IsBytes 176 E ∧
          E.take 16 =
            [0x2b, 0x7e, 0x15, 0x16, 0x28, 0xae, 0xd2, 0xa6, 0xab, 0xf7, 0x15, 0x88, 0x09, 0xcf,
              0x4f, 0x3c] ∧
          ∀ i, 1 ≤ i → i ≤ 10 →
            E.getD (16 * i) 0 =
                E.getD (16 * (i - 1)) 0 ^^^ s_box.getD (E.getD (16 * (i - 1) + 13) 0) 0 ^^^
                  rcon.getD (i - 1) 0 ∧
              E.getD (16 * i + 1) 0 =
                E.getD (16 * (i - 1) + 1) 0 ^^^ s_box.getD (E.getD (16 * (i - 1) + 14) 0) 0 ∧
              E.getD (16 * i + 2) 0 =
                E.getD (16 * (i - 1) + 2) 0 ^^^ s_box.getD (E.getD (16 * (i - 1) + 15) 0) 0 ∧
              E.getD (16 * i + 3) 0 =
                E.getD (16 * (i - 1) + 3) 0 ^^^ s_box.getD (E.getD (16 * (i - 1) + 12) 0) 0 ∧
              ∀ j, 4 ≤ j → j ≤ 15 →
                E.getD (16 * i + j) 0 =
                  E.getD (16 * (i - 1) + j) 0 ^^^ E.getD (16 * i + (j - 4)) 0 :=
  ⟨by decide, expand_key_recurrence _ (by decide)⟩

set_option maxRecDepth 100000 in
/-- C6: encrypting the all-zero block under the all-zero key returns
`66 e9 4b d4 ef 8a 2c 3b 88 4c fa 59 ca 34 2b 2e`, which is not the all-zero block. -/
theorem aes_encrypt_block_zero :
    aes_encrypt_block (List.replicate 16 0) (List.replicate 16 0) =
        .ok [0x66, 0xe9, 0x4b, 0xd4, 0xef, 0x8a, 0x2c, 0x3b, 0x88, 0x4c, 0xfa, 0x59, 0xca, 0x34,
          0x2b, 0x2e] ∧
      aes_encrypt_block (List.replicate 16 0) (List.replicate 16 0) ≠
        .ok (List.replicate 16 0) := by
  have h : aes_encrypt_block (List.replicate 16 0) (List.replicate 16 0) =
      .ok [0x66, 0xe9, 0x4b, 0xd4, 0xef, 0x8a, 0x2c, 0x3b, 0x88, 0x4c, 0xfa, 0x59, 0xca, 0x34,
        0x2b, 0x2e] := by
    decide!
  refine ⟨h, ?_⟩
  rw [h]
  decide

/-- C7: for every byte `x`, looking `s_box[x]` up in `inv_s_box` gives `x` back, and looking
`inv_s_box[x]` up in `s_box` gives `x` back; no lookup is out of range. -/
theorem s_box_inv_s_box_inverse (x : Nat) (hx : x < 256) :
    (rd s_box x >>= rd inv_s_box) = .ok x ∧ (rd inv_s_box x >>= rd s_box) = .ok x :=
  ⟨bind_eq_of (rd_s_box hx)
      ((rd_inv_s_box (s_box_getD_lt x)).trans (congrArg Except.ok (inv_s_box_s_box x hx))),
    bind_eq_of (rd_inv_s_box hx)
      ((rd_s_box (inv_s_box_getD_lt x)).trans (congrArg Except.ok (s_box_inv_s_box x hx)))⟩

theorem s_box_inv_s_box_inverse_witness :
    (0x53 : Nat) < 256 ∧
      (rd s_box 0x53 >>= rd inv_s_box) = .ok 0x53 ∧
      (rd inv_s_box 0x53 >>= rd s_box) = .ok 0x53 :=
  ⟨by decide, s_box_inv_s_box_inverse 0x53 (by decide)⟩

/-- C8: for every 16-byte block `B`, `invert_mix_columns` applied to `mix_columns B`
returns `B`. -/
theorem invert_mix_columns_mix_columns (B : List Nat) (hB : IsBytes 16 B) :
    (mix_columns B >>= invert_mix_columns) = .ok B := by
  obtain ⟨c, h1, _, h2⟩ := mix_columns_pair hB
  exact bind_eq_of h1 h2

theorem invert_mix_columns_mix_columns_witness :
    IsBytes 16 [0xdb, 0x13, 0x53, 0x45, 0xf2, 0x0a, 0x22, 0x5c, 0x01, 0x01, 0x01, 0x01, 0xc6,
        0xc6, 0xc6, 0xc6] ∧
      (mix_columns
            [0xdb, 0x13, 0x53, 0x45, 0xf2, 0x0a, 0x22, 0x5c, 0x01, 0x01, 0x01, 0x01, 0xc6, 0xc6,
              0xc6, 0xc6] >>=
          invert_mix_columns) =
        .ok [0xdb, 0x13, 0x53, 0x45, 0xf2, 0x0a, 0x22, 0x5c, 0x01, 0x01, 0x01, 0x01, 0xc6, 0xc6,
          0xc6, 0xc6] :=
  ⟨by decide, invert_mix_columns_mix_columns _ (by decide)⟩

/-- C9: for every 16-byte block `B`, `invert_shift_rows` applied to `shift_rows B` returns
`B`, and `shift_rows` applied to `invert_shift_rows B` returns `B`. -/
theorem invert_shift_rows_shift_rows (B : List Nat) (hB : IsBytes 16 B) :
    (shift_rows B >>= invert_shift_rows) = .ok B ∧
      (invert_shift_rows B >>= shift_rows) = .ok B := by
  obtain ⟨c, h1, _, h2⟩ := shift_rows_pair hB
  obtain ⟨d, h3, _, h4⟩ := invert_shift_rows_pair hB
  exact ⟨bind_eq_of h1 h2, bind_eq_of h3 h4⟩

theorem invert_shift_rows_shift_rows_witness :
    IsBytes 16 [0, 1, 2, 3, 4, 5, 6, 7, 8, 9, 10, 11, 12, 13, 14, 15] ∧
      (shift_rows [0, 1, 2, 3, 4, 5, 6, 7, 8, 9, 10, 11, 12, 13, 14, 15] >>=
          invert_shift_rows) =
        .ok [0, 1, 2, 3, 4, 5, 6, 7, 8, 9, 10, 11, 12, 13, 14, 15] ∧
      (invert_shift_rows [0, 1, 2, 3, 4, 5, 6, 7, 8, 9, 10, 11, 12, 13, 14, 15] >>=
          shift_rows) =
        .ok [0, 1, 2, 3, 4, 5, 6, 7, 8, 9, 10, 11, 12, 13, 14, 15] :=
  ⟨by decide, invert_shift_rows_shift_rows _ (by decide)⟩

/-- C10: for every 16-byte block `B`, `invert_sub_bytes` applied to `sub_bytes B` returns
`B`, and `sub_bytes` applied to `invert_sub_bytes B` returns `B`. -/
theorem invert_sub_bytes_sub_bytes (B : List Nat) (hB : IsBytes 16 B) :
    (sub_bytes B >>= invert_sub_bytes) = .ok B ∧
      (invert_sub_bytes B >>= sub_bytes) = .ok B := by
  obtain ⟨c, h1, _, h2⟩ := sub_bytes_pair hB
  obtain ⟨d, h3, _, h4⟩ := invert_sub_bytes_pair hB
  exact ⟨bind_eq_of h1 h2, bind_eq_of h3 h4⟩

theorem invert_sub_bytes_sub_bytes_witness :
    IsBytes 16 [0x00, 0x11, 0x22, 0x33, 0x44, 0x55, 0x66, 0x77, 0x88, 0x99, 0xaa, 0xbb, 0xcc,
        0xdd, 0xee, 0xff] ∧
      (sub_bytes
            [0x00, 0x11, 0x22, 0x33, 0x44, 0x55, 0x66, 0x77, 0x88, 0x99, 0xaa, 0xbb, 0xcc, 0xdd,
              0xee, 0xff] >>=
          invert_sub_bytes) =
        .ok [0x00, 0x11, 0x22, 0x33, 0x44, 0x55, 0x66, 0x77, 0x88, 0x99, 0xaa, 0xbb, 0xcc, 0xdd,
          0xee, 0xff] ∧
      (invert_sub_bytes
            [0x00, 0x11, 0x22, 0x33, 0x44, 0x55, 0x66, 0x77, 0x88, 0x99, 0xaa, 0xbb, 0xcc, 0xdd,
              0xee, 0xff] >>=
          sub_bytes) =
        .ok [0x00, 0x11, 0x22, 0x33, 0x44, 0x55, 0x66, 0x77, 0x88, 0x99, 0xaa, 0xbb, 0xcc, 0xdd,
          0xee, 0xff] :=
  ⟨by decide, invert_sub_bytes_sub_bytes _ (by decide)⟩

/-! ## Galois field helpers against the field product -/

set_option maxRecDepth 100000 in
/-- Each helper is the field product of its argument and its constant. -/
theorem gm_eq_gf_mul : ∀ v, v < 256 →
    galois_multiply_by_2 v = gf_mul v 2 ∧ galois_multiply_by_3 v = gf_mul v 3 ∧
      galois_multiply_by_9 v = gf_mul v 9 ∧ galois_multiply_by_11 v = gf_mul v 11 ∧
      galois_multiply_by_13 v = gf_mul v 13 ∧ galois_multiply_by_14 v = gf_mul v 14 := by
  decide!

set_option maxRecDepth 100000 in
/-- Each helper is the field product of its constant and its argument. -/
theorem gm_eq_gf_mul_left : ∀ v, v < 256 →
    galois_multiply_by_2 v = gf_mul 2 v ∧ galois_multiply_by_3 v = gf_mul 3 v ∧
      galois_multiply_by_9 v = gf_mul 9 v ∧ galois_multiply_by_11 v = gf_mul 11 v ∧
      galois_multiply_by_13 v = gf_mul 13 v ∧ galois_multiply_by_14 v = gf_mul 14 v := by
  decide!

/-- A check that holds for every pair of an index and the entry at that index holds at each
index. -/
theorem all_zip_range {l : List Nat} {f : Nat → Nat → Bool}
    (h : ((List.range l.length).zip l).all (fun p => f p.1 p.2) = true) (x : Nat)
    (hx : x < l.length) : f x (l.getD x 0) = true := by
  rw [List.all_eq_true] at h
  have hm : (x, l.getD x 0) ∈ (List.range l.length).zip l := by
    rw [List.mem_iff_getElem]
    refine ⟨x, by simpa using hx, ?_⟩
    simp [List.getElem?_eq_getElem hx]
  exact h _ hm

set_option maxRecDepth 100000 in
theorem s_box_entries_ok :
    ((List.range s_box.length).zip s_box).all (fun p => s_box_entry_ok p.1 p.2) = true := by
  decide!

/-- Every entry of `s_box` is the affine image of the field inverse of its index. -/
theorem s_box_is_affine_of_inverse (x : Nat) (hx : x < 256) :
    s_box_affine_inv (s_box.getD x 0) < 256 ∧
      (x = 0 → s_box_affine_inv (s_box.getD x 0) = 0) ∧
      (x ≠ 0 → gf_mul x (s_box_affine_inv (s_box.getD x 0)) = 1) ∧
      s_box.getD x 0 = s_box_affine (s_box_affine_inv (s_box.getD x 0)) := by
  have h := all_zip_range s_box_entries_ok x (s_box_length ▸ hx)
  simp only [s_box_entry_ok, Bool.and_eq_true, Bool.or_eq_true, decide_eq_true_eq,
    bne_iff_ne, beq_iff_eq] at h
  obtain ⟨⟨⟨h1, h2⟩, h3⟩, h4⟩ := h
  refine ⟨h1, fun h0 => ?_, fun h0 => ?_, h4⟩
  · rcases h2 with h2 | h2
    · exact absurd h0 h2
    · exact h2
  · rcases h3 with h3 | h3
    · exact absurd h3 h0
    · exact h3

set_option maxRecDepth 100000 in
/-- Multiplication by 2 is the shift truncated to 8 bits, with `0x1b` xored in exactly when
bit 7 was set. -/
theorem gm2_shift_byte : ∀ v, v < 256 →
    galois_multiply_by_2 v =
      if v.testBit 7 then ((v <<< 1) % 256) ^^^ 0x1b else (v <<< 1) % 256 := by
  decide!

theorem gm2_gf {v : Nat} (h : v < 256) : galois_multiply_by_2 v = gf_mul 2 v :=
  (gm_eq_gf_mul_left v h).1

theorem gm3_gf {v : Nat} (h : v < 256) : galois_multiply_by_3 v = gf_mul 3 v :=
  (gm_eq_gf_mul_left v h).2.1

theorem gm9_gf {v : Nat} (h : v < 256) : galois_multiply_by_9 v = gf_mul 9 v :=
  (gm_eq_gf_mul_left v h).2.2.1

theorem gm11_gf {v : Nat} (h : v < 256) : galois_multiply_by_11 v = gf_mul 11 v :=
  (gm_eq_gf_mul_left v h).2.2.2.1

theorem gm13_gf {v : Nat} (h : v < 256) : galois_multiply_by_13 v = gf_mul 13 v :=
  (gm_eq_gf_mul_left v h).2.2.2.2.1

theorem gm14_gf {v : Nat} (h : v < 256) : galois_multiply_by_14 v = gf_mul 14 v :=
  (gm_eq_gf_mul_left v h).2.2.2.2.2

/-! ## Columns as matrix products over GF(2^8) -/

theorem mix_columns_gf {b0 b1 b2 b3 b4 b5 b6 b7 b8 b9 b10 b11 b12 b13 b14 b15 : Nat}
    (h0 : b0 < 256) (h1 : b1 < 256) (h2 : b2 < 256) (h3 : b3 < 256) (h4 : b4 < 256)
      (h5 : b5 < 256) (h6 : b6 < 256) (h7 : b7 < 256) (h8 : b8 < 256) (h9 : b9 < 256)
      (h10 : b10 < 256) (h11 : b11 < 256) (h12 : b12 < 256) (h13 : b13 < 256) (h14 : b14 < 256)
      (h15 : b15 < 256) :
    mix_columns [b0, b1, b2, b3, b4, b5, b6, b7, b8, b9, b10, b11, b12, b13, b14, b15] =
      .ok [gf_mul 2 b0 ^^^ gf_mul 3 b1 ^^^ b2 ^^^ b3, b0 ^^^ gf_mul 2 b1 ^^^ gf_mul 3 b2 ^^^ b3,
          b0 ^^^ b1 ^^^ gf_mul 2 b2 ^^^ gf_mul 3 b3, gf_mul 3 b0 ^^^ b1 ^^^ b2 ^^^ gf_mul 2 b3,
          gf_mul 2 b4 ^^^ gf_mul 3 b5 ^^^ b6 ^^^ b7, b4 ^^^ gf_mul 2 b5 ^^^ gf_mul 3 b6 ^^^ b7,
          b4 ^^^ b5 ^^^ gf_mul 2 b6 ^^^ gf_mul 3 b7, gf_mul 3 b4 ^^^ b5 ^^^ b6 ^^^ gf_mul 2 b7,
          gf_mul 2 b8 ^^^ gf_mul 3 b9 ^^^ b10 ^^^ b11,
          b8 ^^^ gf_mul 2 b9 ^^^ gf_mul 3 b10 ^^^ b11,
          b8 ^^^ b9 ^^^ gf_mul 2 b10 ^^^ gf_mul 3 b11,
          gf_mul 3 b8 ^^^ b9 ^^^ b10 ^^^ gf_mul 2 b11,
          gf_mul 2 b12 ^^^ gf_mul 3 b13 ^^^ b14 ^^^ b15,
          b12 ^^^ gf_mul 2 b13 ^^^ gf_mul 3 b14 ^^^ b15,
          b12 ^^^ b13 ^^^ gf_mul 2 b14 ^^^ gf_mul 3 b15,
          gf_mul 3 b12 ^^^ b13 ^^^ b14 ^^^ gf_mul 2 b15] := by
  rw [mix_columns_ok]
  simp only [gm2_gf h0, gm3_gf h0, gm2_gf h1, gm3_gf h1, gm2_gf h2, gm3_gf h2, gm2_gf h3, gm3_gf h3,
      gm2_gf h4, gm3_gf h4, gm2_gf h5, gm3_gf h5, gm2_gf h6, gm3_gf h6, gm2_gf h7, gm3_gf h7,
      gm2_gf h8, gm3_gf h8, gm2_gf h9, gm3_gf h9, gm2_gf h10, gm3_gf h10, gm2_gf h11, gm3_gf h11,
      gm2_gf h12, gm3_gf h12, gm2_gf h13, gm3_gf h13, gm2_gf h14, gm3_gf h14, gm2_gf h15,
      gm3_gf h15]

theorem invert_mix_columns_gf {b0 b1 b2 b3 b4 b5 b6 b7 b8 b9 b10 b11 b12 b13 b14 b15 : Nat}
    (h0 : b0 < 256) (h1 : b1 < 256) (h2 : b2 < 256) (h3 : b3 < 256) (h4 : b4 < 256)
      (h5 : b5 < 256) (h6 : b6 < 256) (h7 : b7 < 256) (h8 : b8 < 256) (h9 : b9 < 256)
      (h10 : b10 < 256) (h11 : b11 < 256) (h12 : b12 < 256) (h13 : b13 < 256) (h14 : b14 < 256)
      (h15 : b15 < 256) :
    invert_mix_columns [b0, b1, b2, b3, b4, b5, b6, b7, b8, b9, b10, b11, b12, b13, b14, b15] =
      .ok [gf_mul 14 b0 ^^^ gf_mul 11 b1 ^^^ gf_mul 13 b2 ^^^ gf_mul 9 b3,
          gf_mul 9 b0 ^^^ gf_mul 14 b1 ^^^ gf_mul 11 b2 ^^^ gf_mul 13 b3,
          gf_mul 13 b0 ^^^ gf_mul 9 b1 ^^^ gf_mul 14 b2 ^^^ gf_mul 11 b3,
          gf_mul 11 b0 ^^^ gf_mul 13 b1 ^^^ gf_mul 9 b2 ^^^ gf_mul 14 b3,
          gf_mul 14 b4 ^^^ gf_mul 11 b5 ^^^ gf_mul 13 b6 ^^^ gf_mul 9 b7,
          gf_mul 9 b4 ^^^ gf_mul 14 b5 ^^^ gf_mul 11 b6 ^^^ gf_mul 13 b7,
          gf_mul 13 b4 ^^^ gf_mul 9 b5 ^^^ gf_mul 14 b6 ^^^ gf_mul 11 b7,
          gf_mul 11 b4 ^^^ gf_mul 13 b5 ^^^ gf_mul 9 b6 ^^^ gf_mul 14 b7,
          gf_mul 14 b8 ^^^ gf_mul 11 b9 ^^^ gf_mul 13 b10 ^^^ gf_mul 9 b11,
          gf_mul 9 b8 ^^^ gf_mul 14 b9 ^^^ gf_mul 11 b10 ^^^ gf_mul 13 b11,
          gf_mul 13 b8 ^^^ gf_mul 9 b9 ^^^ gf_mul 14 b10 ^^^ gf_mul 11 b11,
          gf_mul 11 b8 ^^^ gf_mul 13 b9 ^^^ gf_mul 9 b10 ^^^ gf_mul 14 b11,
          gf_mul 14 b12 ^^^ gf_mul 11 b13 ^^^ gf_mul 13 b14 ^^^ gf_mul 9 b15,
          gf_mul 9 b12 ^^^ gf_mul 14 b13 ^^^ gf_mul 11 b14 ^^^ gf_mul 13 b15,
          gf_mul 13 b12 ^^^ gf_mul 9 b13 ^^^ gf_mul 14 b14 ^^^ gf_mul 11 b15,
          gf_mul 11 b12 ^^^ gf_mul 13 b13 ^^^ gf_mul 9 b14 ^^^ gf_mul 14 b15] := by
  rw [invert_mix_columns_ok]
  simp only [gm9_gf h0, gm11_gf h0, gm13_gf h0, gm14_gf h0, gm9_gf h1, gm11_gf h1, gm13_gf h1,
      gm14_gf h1,
      gm9_gf h2, gm11_gf h2, gm13_gf h2, gm14_gf h2, gm9_gf h3, gm11_gf h3, gm13_gf h3,
      gm14_gf h3, gm9_gf h4, gm11_gf h4, gm13_gf h4, gm14_gf h4, gm9_gf h5, gm11_gf h5,
      gm13_gf h5, gm14_gf h5, gm9_gf h6, gm11_gf h6, gm13_gf h6, gm14_gf h6, gm9_gf h7,
      gm11_gf h7, gm13_gf h7, gm14_gf h7, gm9_gf h8, gm11_gf h8, gm13_gf h8, gm14_gf h8,
      gm9_gf h9, gm11_gf h9, gm13_gf h9, gm14_gf h9, gm9_gf h10, gm11_gf h10, gm13_gf h10,
      gm14_gf h10, gm9_gf h11, gm11_gf h11, gm13_gf h11, gm14_gf h11, gm9_gf h12, gm11_gf h12,
      gm13_gf h12, gm14_gf h12, gm9_gf h13, gm11_gf h13, gm13_gf h13, gm14_gf h13, gm9_gf h14,
      gm11_gf h14, gm13_gf h14, gm14_gf h14, gm9_gf h15, gm11_gf h15, gm13_gf h15, gm14_gf h15]

/-! ## InvShiftRows and InvSubBytes commute -/

theorem invert_shift_sub_comm {B : List Nat} (hB : IsBytes 16 B) :
    (invert_shift_rows B >>= invert_sub_bytes) = (invert_sub_bytes B >>= invert_shift_rows) := by
  obtain ⟨b0, b1, b2, b3, b4, b5, b6, b7, b8, b9, b10, b11, b12, b13, b14, b15,
    ⟨h0, h1, h2, h3, h4, h5, h6, h7, h8, h9, h10, h11, h12, h13, h14, h15⟩,
        rfl⟩ := IsBytes.literal hB
  have e1 : (invert_shift_rows [b0, b1, b2, b3, b4, b5, b6, b7, b8, b9, b10, b11, b12, b13, b14,
      b15] >>=
      invert_sub_bytes) =
      .ok [inv_s_box.getD b0 0, inv_s_box.getD b13 0, inv_s_box.getD b10 0, inv_s_box.getD b7 0,
          inv_s_box.getD b4 0, inv_s_box.getD b1 0, inv_s_box.getD b14 0, inv_s_box.getD b11 0,
          inv_s_box.getD b8 0, inv_s_box.getD b5 0, inv_s_box.getD b2 0, inv_s_box.getD b15 0,
          inv_s_box.getD b12 0, inv_s_box.getD b9 0, inv_s_box.getD b6 0, inv_s_box.getD b3 0] :=
    bind_eq_of (invert_shift_rows_ok ..)
      (invert_sub_bytes_ok h0 h13 h10 h7 h4 h1 h14 h11 h8 h5 h2 h15 h12 h9 h6 h3)
  have e2 : (invert_sub_bytes [b0, b1, b2, b3, b4, b5, b6, b7, b8, b9, b10, b11, b12, b13, b14,
      b15] >>=
      invert_shift_rows) =
      .ok [inv_s_box.getD b0 0, inv_s_box.getD b13 0, inv_s_box.getD b10 0, inv_s_box.getD b7 0,
          inv_s_box.getD b4 0, inv_s_box.getD b1 0, inv_s_box.getD b14 0, inv_s_box.getD b11 0,
          inv_s_box.getD b8 0, inv_s_box.getD b5 0, inv_s_box.getD b2 0, inv_s_box.getD b15 0,
          inv_s_box.getD b12 0, inv_s_box.getD b9 0, inv_s_box.getD b6 0, inv_s_box.getD b3 0] :=
    bind_eq_of (invert_sub_bytes_ok h0 h1 h2 h3 h4 h5 h6 h7 h8 h9 h10 h11 h12 h13 h14 h15)
      (invert_shift_rows_ok ..)
  rw [e1, e2]

/-! ## Claims, continued -/

/-- C11: for every 16-byte block `B` and 16-byte round key `K`, `add_round_key B K` returns the
block whose byte `i` is `B[i] xor K[i]` for every `i` in 0..15, and applying `add_round_key`
with `K` to that block returns `B`. -/
theorem add_round_key_self_inverse (B K : List Nat) (hB : IsBytes 16 B) (hK : IsBytes 16 K) :
    ∃ C, add_round_key B K = .ok C ∧
      (∀ i, i < 16 → C.getD i 0 = B.getD i 0 ^^^ K.getD i 0) ∧
      add_round_key C K = .ok B := by
  obtain ⟨b0, b1, b2, b3, b4, b5, b6, b7, b8, b9, b10, b11, b12, b13, b14, b15,
    ⟨h0, h1, h2, h3, h4, h5, h6, h7, h8, h9, h10, h11, h12, h13, h14, h15⟩,
        rfl⟩ := IsBytes.literal hB
  obtain ⟨k0, k1, k2, k3, k4, k5, k6, k7, k8, k9, k10, k11, k12, k13, k14, k15,
    ⟨g0, g1, g2, g3, g4, g5, g6, g7, g8, g9, g10, g11, g12, g13, g14, g15⟩,
        rfl⟩ := IsBytes.literal hK
  refine ⟨_, add_round_key_ok .., ?_, ?_⟩
  · intro i hi
    interval_cases i <;> rfl
  · rw [add_round_key_ok]
    simp only [xor_xor_cancel]

theorem add_round_key_self_inverse_witness :
    IsBytes 16 [0x00, 0x11, 0x22, 0x33, 0x44, 0x55, 0x66, 0x77, 0x88, 0x99, 0xaa, 0xbb, 0xcc,
        0xdd, 0xee, 0xff] ∧
      IsBytes 16 [0x00, 0x01, 0x02, 0x03, 0x04, 0x05, 0x06, 0x07, 0x08, 0x09, 0x0a, 0x0b, 0x0c,
        0x0d, 0x0e, 0x0f] ∧
      ∃ C,
        add_round_key
            [0x00, 0x11, 0x22, 0x33, 0x44, 0x55, 0x66, 0x77, 0x88, 0x99, 0xaa, 0xbb, 0xcc, 0xdd,
              0xee, 0xff]
            [0x00, 0x01, 0x02, 0x03, 0x04, 0x05, 0x06, 0x07, 0x08, 0x09, 0x0a, 0x0b, 0x0c, 0x0d,
              0x0e, 0x0f] = .ok C ∧
          (∀ i, i < 16 →
            C.getD i 0 =
              [0x00, 0x11, 0x22, 0x33, 0x44, 0x55, 0x66, 0x77, 0x88, 0x99, 0xaa, 0xbb, 0xcc,
                  0xdd, 0xee, 0xff].getD i 0 ^^^
                [0x00, 0x01, 0x02, 0x03, 0x04, 0x05, 0x06, 0x07, 0x08, 0x09, 0x0a, 0x0b, 0x0c,
                  0x0d, 0x0e, 0x0f].getD i 0) ∧
          add_round_key C
            [0x00, 0x01, 0x02, 0x03, 0x04, 0x05, 0x06, 0x07, 0x08, 0x09, 0x0a, 0x0b, 0x0c, 0x0d,
              0x0e, 0x0f] =
            .ok [0x00, 0x11, 0x22, 0x33, 0x44, 0x55, 0x66, 0x77, 0x88, 0x99, 0xaa, 0xbb, 0xcc,
              0xdd, 0xee, 0xff] :=
  ⟨by decide, by decide, add_round_key_self_inverse _ _ (by decide) (by decide)⟩

/-- C12: for every byte `v`, `galois_multiply_by_k v` is the product of `v` and `k` in GF(2^8)
(the carry-less product reduced modulo `x^8 + x^4 + x^3 + x + 1`) for `k` in 2, 3, 9, 11, 13,
14; and `galois_multiply_by_2 v` is `v << 1` truncated to 8 bits, xored with `0x1b` exactly
when bit 7 of `v` is set. -/
theorem galois_multiply_is_field_product (v : Nat) (hv : v < 256) :
    galois_multiply_by_2 v = gf_mul v 2 ∧ galois_multiply_by_3 v = gf_mul v 3 ∧
      galois_multiply_by_9 v = gf_mul v 9 ∧ galois_multiply_by_11 v = gf_mul v 11 ∧
      galois_multiply_by_13 v = gf_mul v 13 ∧ galois_multiply_by_14 v = gf_mul v 14 ∧
      galois_multiply_by_2 v =
        if v.testBit 7 then ((v <<< 1) % 256) ^^^ 0x1b else (v <<< 1) % 256 := by
  obtain ⟨e2, e3, e9, e11, e13, e14⟩ := gm_eq_gf_mul v hv
  exact ⟨e2, e3, e9, e11, e13, e14, gm2_shift_byte v hv⟩

theorem galois_multiply_is_field_product_witness :
    (0x57 : Nat) < 256 ∧
      galois_multiply_by_2 0x57 = gf_mul 0x57 2 ∧ galois_multiply_by_3 0x57 = gf_mul 0x57 3 ∧
      galois_multiply_by_9 0x57 = gf_mul 0x57 9 ∧
      galois_multiply_by_11 0x57 = gf_mul 0x57 11 ∧
      galois_multiply_by_13 0x57 = gf_mul 0x57 13 ∧
      galois_multiply_by_14 0x57 = gf_mul 0x57 14 ∧
      galois_multiply_by_2 0x57 =
        if Nat.testBit 0x57 7 then ((0x57 <<< 1) % 256) ^^^ 0x1b else (0x57 <<< 1) % 256 :=
  ⟨by decide, galois_multiply_is_field_product 0x57 (by decide)⟩

/-- C13: for every 16-byte block `B`, `mix_columns B` returns a block `M` such that for every
column `c` in 0..3, with `a_k = B[4c+k]`: `M[4c] = 2 a0 + 3 a1 + a2 + a3`, `M[4c+1] =
    a0 + 2 a1 + 3 a2 + a3`,
`M[4c+2] = a0 + a1 + 2 a2 + 3 a3`, `M[4c+3] = 3 a0 + a1 + a2 + 2 a3`,
where the products are products in GF(2^8) and `+` is xor; the bytes of column `c` of `M`
are given by the bytes of column `c` of `B` alone. -/
theorem mix_columns_matrix (B : List Nat) (hB : IsBytes 16 B) :
    ∃ M, mix_columns B = .ok M ∧ M.length = 16 ∧ ∀ c, c < 4 →
      M.getD (4 * c) 0 =
          gf_mul 2 (B.getD (4 * c) 0) ^^^ gf_mul 3 (B.getD (4 * c + 1) 0) ^^^ B.getD
              (4 * c + 2) 0 ^^^ B.getD (4 * c + 3) 0 ∧
      M.getD (4 * c + 1) 0 =
          B.getD (4 * c) 0 ^^^ gf_mul 2 (B.getD (4 * c + 1) 0) ^^^ gf_mul 3 (B.getD
              (4 * c + 2) 0) ^^^ B.getD (4 * c + 3) 0 ∧
      M.getD (4 * c + 2) 0 =
          B.getD (4 * c) 0 ^^^ B.getD (4 * c + 1) 0 ^^^ gf_mul 2 (B.getD (4 * c + 2) 0) ^^^
              gf_mul 3 (B.getD (4 * c + 3) 0) ∧
      M.getD (4 * c + 3) 0 =
          gf_mul 3 (B.getD (4 * c) 0) ^^^ B.getD (4 * c + 1) 0 ^^^ B.getD (4 * c + 2) 0 ^^^
              gf_mul 2 (B.getD (4 * c + 3) 0) := by
  obtain ⟨b0, b1, b2, b3, b4, b5, b6, b7, b8, b9, b10, b11, b12, b13, b14, b15,
    ⟨h0, h1, h2, h3, h4, h5, h6, h7, h8, h9, h10, h11, h12, h13, h14, h15⟩,
        rfl⟩ := IsBytes.literal hB
  refine ⟨_, mix_columns_gf h0 h1 h2 h3 h4 h5 h6 h7 h8 h9 h10 h11 h12 h13 h14 h15, rfl, ?_⟩
  intro c hc
  interval_cases c <;> exact ⟨rfl, rfl, rfl, rfl⟩

theorem mix_columns_matrix_witness :
    IsBytes 16 [0xdb, 0x13, 0x53, 0x45, 0xf2, 0x0a, 0x22, 0x5c, 0x01, 0x01, 0x01, 0x01, 0xc6, 0xc6,
          0xc6, 0xc6] ∧
      ∃ M,
        mix_columns
            [0xdb, 0x13, 0x53, 0x45, 0xf2, 0x0a, 0x22, 0x5c, 0x01, 0x01, 0x01, 0x01, 0xc6, 0xc6,
          0xc6, 0xc6] = .ok M ∧
          M.length = 16 ∧ ∀ c, c < 4 →
            M.getD (4 * c) 0 =
                gf_mul 2 ([0xdb, 0x13, 0x53, 0x45, 0xf2, 0x0a, 0x22, 0x5c, 0x01, 0x01, 0x01, 0x01,
                    0xc6, 0xc6, 0xc6, 0xc6].getD (4 * c) 0) ^^^ gf_mul 3 ([0xdb, 0x13, 0x53, 0x45,
                        0xf2, 0x0a, 0x22, 0x5c, 0x01, 0x01, 0x01, 0x01, 0xc6, 0xc6, 0xc6,
                            0xc6].getD (4 * c + 1) 0) ^^^ [0xdb, 0x13, 0x53, 0x45, 0xf2, 0x0a,
                                0x22, 0x5c, 0x01, 0x01, 0x01, 0x01, 0xc6, 0xc6, 0xc6, 0xc6].getD
                                    (4 * c + 2) 0 ^^^ [0xdb, 0x13, 0x53, 0x45, 0xf2, 0x0a, 0x22,
                                        0x5c, 0x01, 0x01, 0x01, 0x01, 0xc6, 0xc6, 0xc6, 0xc6].getD
                                            (4 * c + 3) 0 ∧
            M.getD (4 * c + 1) 0 =
                [0xdb, 0x13, 0x53, 0x45, 0xf2, 0x0a, 0x22, 0x5c, 0x01, 0x01, 0x01, 0x01, 0xc6,
                    0xc6, 0xc6, 0xc6].getD (4 * c) 0 ^^^ gf_mul 2 ([0xdb, 0x13, 0x53, 0x45, 0xf2,
                        0x0a, 0x22, 0x5c, 0x01, 0x01, 0x01, 0x01, 0xc6, 0xc6, 0xc6, 0xc6].getD
                            (4 * c + 1) 0) ^^^ gf_mul 3 ([0xdb, 0x13, 0x53, 0x45, 0xf2, 0x0a,
                                0x22, 0x5c, 0x01, 0x01, 0x01, 0x01, 0xc6, 0xc6, 0xc6, 0xc6].getD
                                    (4 * c + 2) 0) ^^^ [0xdb, 0x13, 0x53, 0x45, 0xf2, 0x0a, 0x22,
                                        0x5c, 0x01, 0x01, 0x01, 0x01, 0xc6, 0xc6, 0xc6, 0xc6].getD
                                            (4 * c + 3) 0 ∧
            M.getD (4 * c + 2) 0 =
                [0xdb, 0x13, 0x53, 0x45, 0xf2, 0x0a, 0x22, 0x5c, 0x01, 0x01, 0x01, 0x01, 0xc6,
                    0xc6, 0xc6, 0xc6].getD (4 * c) 0 ^^^ [0xdb, 0x13, 0x53, 0x45, 0xf2, 0x0a,
                        0x22, 0x5c, 0x01, 0x01, 0x01, 0x01, 0xc6, 0xc6, 0xc6, 0xc6].getD
                            (4 * c + 1) 0 ^^^ gf_mul 2 ([0xdb, 0x13, 0x53, 0x45, 0xf2, 0x0a, 0x22,
                                0x5c, 0x01, 0x01, 0x01, 0x01, 0xc6, 0xc6, 0xc6, 0xc6].getD
                                    (4 * c + 2) 0) ^^^ gf_mul 3 ([0xdb, 0x13, 0x53, 0x45, 0xf2,
                                        0x0a, 0x22, 0x5c, 0x01, 0x01, 0x01, 0x01, 0xc6, 0xc6,
                                            0xc6, 0xc6].getD (4 * c + 3) 0) ∧
            M.getD (4 * c + 3) 0 =
                gf_mul 3 ([0xdb, 0x13, 0x53, 0x45, 0xf2, 0x0a, 0x22, 0x5c, 0x01, 0x01, 0x01, 0x01,
                    0xc6, 0xc6, 0xc6, 0xc6].getD (4 * c) 0) ^^^ [0xdb, 0x13, 0x53, 0x45, 0xf2,
                        0x0a, 0x22, 0x5c, 0x01, 0x01, 0x01, 0x01, 0xc6, 0xc6, 0xc6, 0xc6].getD
                            (4 * c + 1) 0 ^^^ [0xdb, 0x13, 0x53, 0x45, 0xf2, 0x0a, 0x22, 0x5c,
                                0x01, 0x01, 0x01, 0x01, 0xc6, 0xc6, 0xc6, 0xc6].getD
                                    (4 * c + 2) 0 ^^^ gf_mul 2 ([0xdb, 0x13, 0x53, 0x45, 0xf2,
                                        0x0a, 0x22, 0x5c, 0x01, 0x01, 0x01, 0x01, 0xc6, 0xc6,
                                            0xc6, 0xc6].getD (4 * c + 3) 0) :=
  ⟨by decide, mix_columns_matrix _ (by decide)⟩

/-- C14: for every 16-byte block `B`, `invert_mix_columns B` returns a block `M` such that for every
column `c` in 0..3, with `a_k = B[4c+k]`: `M[4c] = 14 a0 + 11 a1 + 13 a2 + 9 a3`,
`M[4c+1] = 9 a0 + 14 a1 + 11 a2 + 13 a3`, `M[4c+2] = 13 a0 + 9 a1 + 14 a2 + 11 a3`,
`M[4c+3] = 11 a0 + 13 a1 + 9 a2 + 14 a3`,
where the products are products in GF(2^8) and `+` is xor; the bytes of column `c` of `M`
are given by the bytes of column `c` of `B` alone. -/
theorem invert_mix_columns_matrix (B : List Nat) (hB : IsBytes 16 B) :
    ∃ M, invert_mix_columns B = .ok M ∧ M.length = 16 ∧ ∀ c, c < 4 →
      M.getD (4 * c) 0 =
          gf_mul 14 (B.getD (4 * c) 0) ^^^ gf_mul 11 (B.getD (4 * c + 1) 0) ^^^ gf_mul 13 (B.getD
              (4 * c + 2) 0) ^^^ gf_mul 9 (B.getD (4 * c + 3) 0) ∧
      M.getD (4 * c + 1) 0 =
          gf_mul 9 (B.getD (4 * c) 0) ^^^ gf_mul 14 (B.getD (4 * c + 1) 0) ^^^ gf_mul 11 (B.getD
              (4 * c + 2) 0) ^^^ gf_mul 13 (B.getD (4 * c + 3) 0) ∧
      M.getD (4 * c + 2) 0 =
          gf_mul 13 (B.getD (4 * c) 0) ^^^ gf_mul 9 (B.getD (4 * c + 1) 0) ^^^ gf_mul 14 (B.getD
              (4 * c + 2) 0) ^^^ gf_mul 11 (B.getD (4 * c + 3) 0) ∧
      M.getD (4 * c + 3) 0 =
          gf_mul 11 (B.getD (4 * c) 0) ^^^ gf_mul 13 (B.getD (4 * c + 1) 0) ^^^ gf_mul 9 (B.getD
              (4 * c + 2) 0) ^^^ gf_mul 14 (B.getD (4 * c + 3) 0) := by
  obtain ⟨b0, b1, b2, b3, b4, b5, b6, b7, b8, b9, b10, b11, b12, b13, b14, b15,
    ⟨h0, h1, h2, h3, h4, h5, h6, h7, h8, h9, h10, h11, h12, h13, h14, h15⟩,
        rfl⟩ := IsBytes.literal hB
  refine ⟨_, invert_mix_columns_gf h0 h1 h2 h3 h4 h5 h6 h7 h8 h9 h10 h11 h12 h13 h14 h15, rfl, ?_⟩
  intro c hc
  interval_cases c <;> exact ⟨rfl, rfl, rfl, rfl⟩

theorem invert_mix_columns_matrix_witness :
    IsBytes 16 [0xdb, 0x13, 0x53, 0x45, 0xf2, 0x0a, 0x22, 0x5c, 0x01, 0x01, 0x01, 0x01, 0xc6, 0xc6,
          0xc6, 0xc6] ∧
      ∃ M,
        invert_mix_columns
            [0xdb, 0x13, 0x53, 0x45, 0xf2, 0x0a, 0x22, 0x5c, 0x01, 0x01, 0x01, 0x01, 0xc6, 0xc6,
          0xc6, 0xc6] = .ok M ∧
          M.length = 16 ∧ ∀ c, c < 4 →
            M.getD (4 * c) 0 =
                gf_mul 14 ([0xdb, 0x13, 0x53, 0x45, 0xf2, 0x0a, 0x22, 0x5c, 0x01, 0x01, 0x01,
                    0x01, 0xc6, 0xc6, 0xc6, 0xc6].getD (4 * c) 0) ^^^ gf_mul 11 ([0xdb, 0x13,
                        0x53, 0x45, 0xf2, 0x0a, 0x22, 0x5c, 0x01, 0x01, 0x01, 0x01, 0xc6, 0xc6,
                            0xc6, 0xc6].getD (4 * c + 1) 0) ^^^ gf_mul 13 ([0xdb, 0x13, 0x53,
                                0x45, 0xf2, 0x0a, 0x22, 0x5c, 0x01, 0x01, 0x01, 0x01, 0xc6, 0xc6,
                                    0xc6, 0xc6].getD (4 * c + 2) 0) ^^^ gf_mul 9 ([0xdb, 0x13,
                                        0x53, 0x45, 0xf2, 0x0a, 0x22, 0x5c, 0x01, 0x01, 0x01,
                                            0x01, 0xc6, 0xc6, 0xc6, 0xc6].getD (4 * c + 3) 0) ∧
            M.getD (4 * c + 1) 0 =
                gf_mul 9 ([0xdb, 0x13, 0x53, 0x45, 0xf2, 0x0a, 0x22, 0x5c, 0x01, 0x01, 0x01, 0x01,
                    0xc6, 0xc6, 0xc6, 0xc6].getD (4 * c) 0) ^^^ gf_mul 14 ([0xdb, 0x13, 0x53,
                        0x45, 0xf2, 0x0a, 0x22, 0x5c, 0x01, 0x01, 0x01, 0x01, 0xc6, 0xc6, 0xc6,
                            0xc6].getD (4 * c + 1) 0) ^^^ gf_mul 11 ([0xdb, 0x13, 0x53, 0x45,
                                0xf2, 0x0a, 0x22, 0x5c, 0x01, 0x01, 0x01, 0x01, 0xc6, 0xc6, 0xc6,
                                    0xc6].getD (4 * c + 2) 0) ^^^ gf_mul 13 ([0xdb, 0x13, 0x53,
                                        0x45, 0xf2, 0x0a, 0x22, 0x5c, 0x01, 0x01, 0x01, 0x01,
                                            0xc6, 0xc6, 0xc6, 0xc6].getD (4 * c + 3) 0) ∧
            M.getD (4 * c + 2) 0 =
                gf_mul 13 ([0xdb, 0x13, 0x53, 0x45, 0xf2, 0x0a, 0x22, 0x5c, 0x01, 0x01, 0x01,
                    0x01, 0xc6, 0xc6, 0xc6, 0xc6].getD (4 * c) 0) ^^^ gf_mul 9 ([0xdb, 0x13, 0x53,
                        0x45, 0xf2, 0x0a, 0x22, 0x5c, 0x01, 0x01, 0x01, 0x01, 0xc6, 0xc6, 0xc6,
                            0xc6].getD (4 * c + 1) 0) ^^^ gf_mul 14 ([0xdb, 0x13, 0x53, 0x45,
                                0xf2, 0x0a, 0x22, 0x5c, 0x01, 0x01, 0x01, 0x01, 0xc6, 0xc6, 0xc6,
                                    0xc6].getD (4 * c + 2) 0) ^^^ gf_mul 11 ([0xdb, 0x13, 0x53,
                                        0x45, 0xf2, 0x0a, 0x22, 0x5c, 0x01, 0x01, 0x01, 0x01,
                                            0xc6, 0xc6, 0xc6, 0xc6].getD (4 * c + 3) 0) ∧
            M.getD (4 * c + 3) 0 =
                gf_mul 11 ([0xdb, 0x13, 0x53, 0x45, 0xf2, 0x0a, 0x22, 0x5c, 0x01, 0x01, 0x01,
                    0x01, 0xc6, 0xc6, 0xc6, 0xc6].getD (4 * c) 0) ^^^ gf_mul 13 ([0xdb, 0x13,
                        0x53, 0x45, 0xf2, 0x0a, 0x22, 0x5c, 0x01, 0x01, 0x01, 0x01, 0xc6, 0xc6,
                            0xc6, 0xc6].getD (4 * c + 1) 0) ^^^ gf_mul 9 ([0xdb, 0x13, 0x53, 0x45,
                                0xf2, 0x0a, 0x22, 0x5c, 0x01, 0x01, 0x01, 0x01, 0xc6, 0xc6, 0xc6,
                                    0xc6].getD (4 * c + 2) 0) ^^^ gf_mul 14 ([0xdb, 0x13, 0x53,
                                        0x45, 0xf2, 0x0a, 0x22, 0x5c, 0x01, 0x01, 0x01, 0x01,
                                            0xc6, 0xc6, 0xc6, 0xc6].getD (4 * c + 3) 0) :=
  ⟨by decide, invert_mix_columns_matrix _ (by decide)⟩

/-- C15: for every 16-byte block `B`, every row `r` in 0..3 and every column `c` in 0..3,
byte `r + 4c` of `shift_rows B` is byte `r + 4 ((c + r) mod 4)` of `B`: row `r` is rotated
left by `r` positions; in particular row 0 (bytes 0, 4, 8, 12) is unchanged. -/
theorem shift_rows_rotates_rows (B : List Nat) (hB : IsBytes 16 B) :
    ∃ S, shift_rows B = .ok S ∧ S.length = 16 ∧
      (∀ r, r < 4 → ∀ c, c < 4 → S.getD (r + 4 * c) 0 = B.getD (r + 4 * ((c + r) % 4)) 0) ∧
      ∀ c, c < 4 → S.getD (4 * c) 0 = B.getD (4 * c) 0 := by
  obtain ⟨b0, b1, b2, b3, b4, b5, b6, b7, b8, b9, b10, b11, b12, b13, b14, b15,
    ⟨h0, h1, h2, h3, h4, h5, h6, h7, h8, h9, h10, h11, h12, h13, h14, h15⟩,
        rfl⟩ := IsBytes.literal hB
  refine ⟨_, shift_rows_ok .., rfl, ?_, ?_⟩
  · intro r hr c hc
    interval_cases r <;> interval_cases c <;> rfl
  · intro c hc
    interval_cases c <;> rfl

theorem shift_rows_rotates_rows_witness :
    IsBytes 16 [0, 1, 2, 3, 4, 5, 6, 7, 8, 9, 10, 11, 12, 13, 14, 15] ∧
      ∃ S, shift_rows [0, 1, 2, 3, 4, 5, 6, 7, 8, 9, 10, 11, 12, 13, 14, 15] = .ok S ∧
        S.length = 16 ∧
        (∀ r, r < 4 → ∀ c, c < 4 →
          S.getD (r + 4 * c) 0 =
            [0, 1, 2, 3, 4, 5, 6, 7, 8, 9, 10, 11, 12, 13, 14, 15].getD
              (r + 4 * ((c + r) % 4)) 0) ∧
        ∀ c, c < 4 →
          S.getD (4 * c) 0 =
            [0, 1, 2, 3, 4, 5, 6, 7, 8, 9, 10, 11, 12, 13, 14, 15].getD (4 * c) 0 :=
  ⟨by decide, shift_rows_rotates_rows _ (by decide)⟩

/-- C16: for every byte `x`, the lookup `s_box[x]` is in range and returns
`b xor rotl8(b,1) xor rotl8(b,2) xor rotl8(b,3) xor rotl8(b,4) xor 0x63`, where `b` is a byte,
`b = 0` for `x = 0`, and otherwise `b` is the multiplicative inverse of `x` in GF(2^8), that
is `x b = 1` in the field. -/
theorem s_box_bit_exact (x : Nat) (hx : x < 256) :
    ∃ b, b < 256 ∧ (x = 0 → b = 0) ∧ (x ≠ 0 → gf_mul x b = 1) ∧
      rd s_box x =
        .ok (b ^^^ rotl8 b 1 ^^^ rotl8 b 2 ^^^ rotl8 b 3 ^^^ rotl8 b 4 ^^^ 0x63) := by
  obtain ⟨h1, h2, h3, h4⟩ := s_box_is_affine_of_inverse x hx
  exact ⟨_, h1, h2, h3, (rd_s_box hx).trans (congrArg Except.ok h4)⟩

theorem s_box_bit_exact_witness :
    (0x53 : Nat) < 256 ∧
      ∃ b, b < 256 ∧ ((0x53 : Nat) = 0 → b = 0) ∧ ((0x53 : Nat) ≠ 0 → gf_mul 0x53 b = 1) ∧
        rd s_box 0x53 =
          .ok (b ^^^ rotl8 b 1 ^^^ rotl8 b 2 ^^^ rotl8 b 3 ^^^ rotl8 b 4 ^^^ 0x63) :=
  ⟨by decide, s_box_bit_exact 0x53 (by decide)⟩

/-- C17: `rcon` has exactly 10 entries, `rcon[0] = 0x01`, `rcon[9] = 0x36`, and for every `i`
in 0..8, `rcon[i+1] = galois_multiply_by_2 (rcon[i])`. -/
theorem rcon_doubling :
    rcon.length = 10 ∧ rd rcon 0 = .ok 0x01 ∧ rd rcon 9 = .ok 0x36 ∧
      ∀ i, i < 9 → rcon.getD (i + 1) 0 = galois_multiply_by_2 (rcon.getD i 0) := by
  decide

/-- C18, as the claim states it, fails: there is no 16-byte block on which the two orders of
`invert_shift_rows` and `invert_sub_bytes` differ. -/
theorem invert_shift_sub_never_differ :
    ¬ ∃ B, IsBytes 16 B ∧
      (invert_shift_rows B >>= invert_sub_bytes) ≠
        (invert_sub_bytes B >>= invert_shift_rows) :=
  fun ⟨_, hB, hne⟩ => hne (invert_shift_sub_comm hB)

/-- C18, amended: `invert_shift_rows` and `invert_sub_bytes` commute; for every 16-byte block
`B`, `invert_sub_bytes` after `invert_shift_rows` returns the same block as
`invert_shift_rows` after `invert_sub_bytes`, and both return without fault. -/
theorem invert_shift_sub_commute (B : List Nat) (hB : IsBytes 16 B) :
    ∃ P, (invert_shift_rows B >>= invert_sub_bytes) = .ok P ∧
      (invert_sub_bytes B >>= invert_shift_rows) = .ok P := by
  obtain ⟨c, w, h1, h2, _, _, _⟩ := inv_shift_sub_pair hB
  have h : (invert_shift_rows B >>= invert_sub_bytes) = .ok w := bind_eq_of h1 h2
  exact ⟨w, h, (invert_shift_sub_comm hB).symm.trans h⟩

theorem invert_shift_sub_commute_witness :
    IsBytes 16 [0x69, 0xc4, 0xe0, 0xd8, 0x6a, 0x7b, 0x04, 0x30, 0xd8, 0xcd, 0xb7, 0x80, 0x70,
        0xb4, 0xc5, 0x5a] ∧
      ∃ P,
        (invert_shift_rows
              [0x69, 0xc4, 0xe0, 0xd8, 0x6a, 0x7b, 0x04, 0x30, 0xd8, 0xcd, 0xb7, 0x80, 0x70,
                0xb4, 0xc5, 0x5a] >>=
            invert_sub_bytes) = .ok P ∧
          (invert_sub_bytes
              [0x69, 0xc4, 0xe0, 0xd8, 0x6a, 0x7b, 0x04, 0x30, 0xd8, 0xcd, 0xb7, 0x80, 0x70,
                0xb4, 0xc5, 0x5a] >>=
            invert_shift_rows) = .ok P :=
  ⟨by decide, invert_shift_sub_commute _ (by decide)⟩

set_option maxRecDepth 100000 in
/-- C19: there are a 16-byte block `B` and a 16-byte round key `K` (the zero block and the key
`01 00 .. 00`) for which `invert_mix_columns` after `add_round_key` differs from
`add_round_key` after `invert_mix_columns`. -/
theorem add_round_key_invert_mix_columns_differ :
    ∃ B K, IsBytes 16 B ∧ IsBytes 16 K ∧
      (add_round_key B K >>= invert_mix_columns) ≠
        (invert_mix_columns B >>= fun b => add_round_key b K) :=
  ⟨List.replicate 16 0, 1 :: List.replicate 15 0, by decide, by decide, by decide!⟩

/-- C20: for every 16-byte key and every 16-byte input block no access is out of range:
`expand_key` returns exactly 176 bytes, and `aes_encrypt_block` and `aes_decrypt_block`
return exactly 16 bytes, none of them taking the error branch.  The offsets used stay in
range: for `i` in 1..10 and `j` in 0..15 the schedule offsets `(i-1) KEY_SIZE + j` and
`i KEY_SIZE + j` are below 176 and `i - 1` is below the 10 entries of `rcon`; a round key
slice starting at `round KEY_SIZE` with `round` in 0..10 has its 16 bytes inside the
schedule; block offsets `BLOCK_ACCESS row col` with `row`, `col` below 4 are below 16; and
both substitution tables have an entry for every byte. -/
theorem no_out_of_range_access (B K : List Nat) (hB : IsBytes 16 B) (hK : IsBytes 16 K) :
    (∃ E, expand_key K = .ok E ∧ E.length = EXPANDED_KEY_SIZE ∧ E.length = 176) ∧
      (∃ C, aes_encrypt_block B K = .ok C ∧ C.length = 16) ∧
      (∃ P, aes_decrypt_block B K = .ok P ∧ P.length = 16) ∧
      (∀ i, 1 ≤ i → i ≤ NUM_ROUNDS → ∀ j, j < 16 →
        (i - 1) * KEY_SIZE + j < EXPANDED_KEY_SIZE ∧ i * KEY_SIZE + j < EXPANDED_KEY_SIZE ∧
          i - 1 < rcon.length) ∧
      (∀ round, round ≤ NUM_ROUNDS → round * KEY_SIZE + BLOCK_SIZE ≤ EXPANDED_KEY_SIZE) ∧
      (∀ row, row < 4 → ∀ col, col < 4 → BLOCK_ACCESS row col < BLOCK_SIZE) ∧
      s_box.length = 256 ∧ inv_s_box.length = 256 := by
  obtain ⟨E, hE, vE, _, _⟩ := expand_key_spec hK
  obtain ⟨C, hC, vC, _⟩ := decrypt_encrypt hB hK
  obtain ⟨P, hP, vP, _⟩ := encrypt_decrypt hB hK
  refine ⟨⟨E, hE, vE.1, vE.1⟩, ⟨C, hC, vC.1⟩, ⟨P, hP, vP.1⟩, ?_, ?_, ?_, s_box_length,
    inv_s_box_length⟩
  · intro i h1 h10 j hj
    simp only [NUM_ROUNDS] at h10
    simp only [KEY_SIZE, EXPANDED_KEY_SIZE, NUM_ROUNDS, rcon_length]
    omega
  · intro round h
    simp only [NUM_ROUNDS] at h
    simp only [KEY_SIZE, EXPANDED_KEY_SIZE, NUM_ROUNDS, BLOCK_SIZE]
    omega
  · intro row hr col hc
    simp only [BLOCK_ACCESS, BLOCK_SIZE]
    omega

theorem no_out_of_range_access_witness :
    IsBytes 16
        [0x00, 0x11, 0x22, 0x33, 0x44, 0x55, 0x66, 0x77, 0x88, 0x99, 0xaa, 0xbb, 0xcc, 0xdd, 0xee,
            0xff] ∧
      IsBytes 16
        [0x00, 0x01, 0x02, 0x03, 0x04, 0x05, 0x06, 0x07, 0x08, 0x09, 0x0a, 0x0b, 0x0c, 0x0d, 0x0e,
            0x0f] ∧
      (∃ E,
        expand_key
          [0x00, 0x01, 0x02, 0x03, 0x04, 0x05, 0x06, 0x07, 0x08, 0x09, 0x0a, 0x0b, 0x0c, 0x0d, 0x0e,
            0x0f] = .ok E ∧
          E.length = EXPANDED_KEY_SIZE ∧ E.length = 176) ∧
      (∃ C,
        aes_encrypt_block
          [0x00, 0x11, 0x22, 0x33, 0x44, 0x55, 0x66, 0x77, 0x88, 0x99, 0xaa, 0xbb, 0xcc, 0xdd, 0xee,
            0xff]
          [0x00, 0x01, 0x02, 0x03, 0x04, 0x05, 0x06, 0x07, 0x08, 0x09, 0x0a, 0x0b, 0x0c, 0x0d, 0x0e,
            0x0f] = .ok C ∧
          C.length = 16) ∧
      (∃ P,
        aes_decrypt_block
          [0x00, 0x11, 0x22, 0x33, 0x44, 0x55, 0x66, 0x77, 0x88, 0x99, 0xaa, 0xbb, 0xcc, 0xdd, 0xee,
            0xff]
          [0x00, 0x01, 0x02, 0x03, 0x04, 0x05, 0x06, 0x07, 0x08, 0x09, 0x0a, 0x0b, 0x0c, 0x0d, 0x0e,
            0x0f] = .ok P ∧
          P.length = 16) ∧
      (∀ i, 1 ≤ i → i ≤ NUM_ROUNDS → ∀ j, j < 16 →
        (i - 1) * KEY_SIZE + j < EXPANDED_KEY_SIZE ∧ i * KEY_SIZE + j < EXPANDED_KEY_SIZE ∧
          i - 1 < rcon.length) ∧
      (∀ round, round ≤ NUM_ROUNDS → round * KEY_SIZE + BLOCK_SIZE ≤ EXPANDED_KEY_SIZE) ∧
      (∀ row, row < 4 → ∀ col, col < 4 → BLOCK_ACCESS row col < BLOCK_SIZE) ∧
      s_box.length = 256 ∧ inv_s_box.length = 256 :=
  ⟨by decide, by decide, no_out_of_range_access _ _ (by decide) (by decide)⟩

end Rijndael
